import Mathlib

/-!
# Verification of the openclaw-leuko L2 cognitive check engine

A shallow embedding of the L2 cognitive check engine of the
`openclaw-leuko` plugin, together with proofs about the behaviours its
specification describes: the fail-open protocol of the LLM-backed checks
(`src/checks/goal-quality.ts`, `src/checks/thread-health.ts`,
`src/check-runner.ts`), the finding merge and dedup rules, the
deterministic pipeline-correlation and anomaly-detection checks, the
consecutive-critical escalation tracker of `src/index.ts`, the
primary/fallback LLM client of `src/llm-client.ts`, and the atomic
merge-write of `src/status-writer.ts`.

Embedding conventions:
* Machine `number`s that hold epoch milliseconds are `Int`; sizes, ages,
  ratios and other fractional quantities are `ℚ`.
* A JavaScript `Date` parse (`new Date(s).getTime()`) is represented by a
  `DateVal`: the raw string (used when building messages) together with
  `ms : Option Int`, where `none` stands for a `NaN` result.
* A JavaScript value that may be `undefined` (or fail a `typeof` check)
  is an `Option`.
* The raw text an LLM returns is represented by its parse outcome:
  `content : Option (Option α)` — `none` is `null` content,
  `some none` is text on which `JSON.parse` throws, and `some (some r)`
  is text parsing to the (duck-typed, field-wise optional) response `r`.
* Wall-clock reads (`Date.now()`, `toISOString()`) enter as explicit
  parameters (`now`, `timestamp`, `dur`).
-/

namespace Leuko

/-! ## Severity lattice and parsing utilities (`src/check-utils.ts`) -/

inductive Severity where
  | ok
  | warn
  | critical
deriving DecidableEq, Repr

/-- `parseSeverityString` from `check-utils.ts`: any value that is not
exactly the string `"ok"`, `"warn"` or `"critical"` maps to `ok`.
`none` stands for an absent or non-string JSON field. -/
def parseSeverityString (v : Option String) : Severity :=
  match v with
  | some "ok" => .ok
  | some "warn" => .warn
  | some "critical" => .critical
  | _ => .ok

/-- Variadic `worstSeverity` from `check-utils.ts`
(`includes("critical") → critical`, else `includes("warn") → warn`, else `ok`). -/
def worstSeverity (severities : List Severity) : Severity :=
  if Severity.critical ∈ severities then .critical
  else if Severity.warn ∈ severities then .warn
  else .ok

/-- The rank used by the local two-argument `worstSeverity` of
`thread-health.ts` (`order = { ok: 0, warn: 1, critical: 2 }`). -/
def sevOrder : Severity → Nat
  | .ok => 0
  | .warn => 1
  | .critical => 2

/-- Local two-argument `worstSeverity` of `thread-health.ts`:
`order[a] >= order[b] ? a : b`. -/
def worstSeverity2 (a b : Severity) : Severity :=
  if sevOrder a ≥ sevOrder b then a else b

/-! ## JavaScript numeric/date helpers -/

/-- `Math.round` (round half towards positive infinity). -/
def jsRound (q : ℚ) : Int :=
  Int.floor (q + 1/2)

/-- `Math.round(q * 10) / 10` — rounding to one decimal, as used for the
`threads_age_hours` output value in `pipeline-correlation.ts`. -/
def jsRound10 (q : ℚ) : ℚ :=
  (jsRound (q * 10) : ℚ) / 10

/-- `Number.prototype.toFixed(1)` for the positive ratios that
`anomaly-detection.ts` formats: round `q * 10` to the nearest integer
(ties up) and print with one decimal digit. -/
def toFixed1 (q : ℚ) : String :=
  let n := jsRound (q * 10)
  toString (n / 10) ++ "." ++ toString (n % 10)

/-- The result of running a string through `new Date(...).getTime()`:
the raw string plus the parsed epoch milliseconds (`none` for `NaN`). -/
structure DateVal where
  raw : String
  ms : Option Int
deriving DecidableEq, Repr

/-! ## Check result data model (`src/types.ts`) -/

structure CheckFinding where
  item_id : Option String := none
  thread_id : Option String := none
  issue : String := "unknown"
  detail : String := ""
  line : Option String := none
  days_since_update : Option Int := none
  recommendation : Option String := none
deriving DecidableEq, Repr

structure CorrelationEntry where
  input : String
  input_value : ℚ
  output : String
  output_value : ℚ
  diagnosis : String
deriving DecidableEq, Repr

structure AnomalyEntry where
  metric : String
  current : ℚ
  baseline : ℚ
  deviation : String
  severity : Severity
deriving DecidableEq, Repr

/-- A housekeeping recommendation produced by CK-06 (priority is one of
`low`/`medium`/`high` after coercion). -/
structure Recommendation where
  type : String
  target : String
  reason : String
  priority : String
deriving DecidableEq, Repr

/-- `CognitiveCheckResult`. `baselines` is the JS object
`Record<string, number>`, represented as an association list with
JS property-write semantics (see `setBaseline`). -/
structure CheckResult where
  check_name : String
  severity : Severity
  detail : String
  findings : Option (List CheckFinding) := none
  correlations : Option (List CorrelationEntry) := none
  anomalies : Option (List AnomalyEntry) := none
  baselines : Option (List (String × ℚ)) := none
  recommendations : Option (List Recommendation) := none
  escalation_needed : Option Bool := none
  consecutive_critical_count : Option Int := none
  first_critical_at : Option String := none
  timestamp : String := ""
  model_used : Option String := none
  tokens_used : Option Int := none
  duration_ms : Int := 0
deriving DecidableEq, Repr

/-! ## LLM call outcome, as seen by a check

`LlmClient.generate` resolves with `{content, model, tokens, error?}`;
the runner then feeds `content` through `parseLlmJson`.  `content` here
is the composite outcome (see the embedding conventions above). -/

structure LlmResult (α : Type) where
  content : Option (Option α)
  model : String
  tokens : Int
  error : Option String := none

/-- The failure message the check runner builds when `content === null`:
`LLM unavailable (error)` when an error string is present, else `LLM timeout`. -/
def llmFailMessage (error : Option String) : String :=
  match error with
  | some e => "LLM unavailable (" ++ e ++ ")"
  | none => "LLM timeout"

/-! ## CK-01 Goal Quality (`src/checks/goal-quality.ts`)

The check runs through the generic runner of `src/check-runner.ts`:
read input → pre-filter → LLM call → parse → merge, failing open via
`buildFailOpen` when the LLM content is `null` or unparsable.  The
runner's stages are inlined into `runGoalQualityCheck` below; the
`buildPrompt` stage only feeds the (external) LLM and is dropped.  The
input is taken after `extractGoals`: `none` for a missing/unreadable
goals file, otherwise the extracted goal list. -/

/-- `PendingGoal`, restricted to the fields the check reads. -/
structure PendingGoal where
  id : String
  title : String
  status : Option String := none
  expires : Option DateVal := none
  proposed_at : Option DateVal := none
deriving DecidableEq, Repr

/-- `checkExpired`: flag a goal whose `expires` date parses and lies in
the past. -/
def checkExpired (goal : PendingGoal) (now : Int) : Option CheckFinding :=
  match goal.expires with
  | none => none
  | some d =>
    match d.ms with
    | some expiryMs =>
      if expiryMs < now then
        some { item_id := some goal.id
               issue := "expired"
               detail := "Goal \"" ++ goal.title ++ "\" expired on " ++ d.raw
               recommendation := some "Remove or renew this goal" }
      else none
    | none => none

/-- `checkStaleProposal`: flag a goal with `status = "proposed"` whose
`proposed_at` is more than 48 hours old. -/
def checkStaleProposal (goal : PendingGoal) (now : Int) : Option CheckFinding :=
  match goal.proposed_at with
  | none => none
  | some d =>
    if goal.status ≠ some "proposed" then none
    else
      match d.ms with
      | some proposedMs =>
        if now - proposedMs > 48 * 60 * 60 * 1000 then
          some { item_id := some goal.id
                 issue := "stale_proposal"
                 detail := "Goal \"" ++ goal.title ++ "\" proposed "
                   ++ toString (jsRound (((now - proposedMs : Int) : ℚ) / 3600000))
                   ++ "h ago, still not approved"
                 recommendation := some "Review and approve or reject this goal" }
        else none
      | none => none

/-- `preFilterGoals`: for each goal, push the expired finding then the
stale-proposal finding. -/
def preFilterGoals (goals : List PendingGoal) (now : Int) : List CheckFinding :=
  goals.flatMap (fun g => (checkExpired g now).toList ++ (checkStaleProposal g now).toList)

/-- One element of `LlmGoalResponse.findings` (every field duck-typed:
`none` when absent or of the wrong JSON type). -/
structure RawGoalFinding where
  item_id : Option String := none
  issue : Option String := none
  detail : Option String := none
  recommendation : Option String := none
deriving DecidableEq, Repr

/-- `LlmGoalResponse` (duck-typed LLM reply; `findings = none` when the
field is absent or not an array). -/
structure LlmGoalResponse where
  severity : Option String := none
  detail : Option String := none
  findings : Option (List RawGoalFinding) := none
deriving DecidableEq, Repr

/-- The element-wise sanitisation `mergeLlmFindings` applies to the LLM
findings (string fields defaulted, ids kept optional). -/
def sanitizeGoalFinding (f : RawGoalFinding) : CheckFinding :=
  { item_id := f.item_id
    issue := f.issue.getD "unknown"
    detail := f.detail.getD ""
    recommendation := f.recommendation }

/-- The id set `new Set(preFindings.map(f => f.item_id).filter(Boolean))`:
defined ids, with the empty string dropped by JS truthiness. -/
def seenIds (preFindings : List CheckFinding) : List String :=
  ((preFindings.map (·.item_id)).filterMap id).filter (· ≠ "")

/-- `mergeLlmFindings` from `goal-quality.ts`: sanitise the LLM findings,
drop those whose (truthy) `item_id` already appears among the pre-filter
ids, and append the survivors after the pre-filter findings. -/
def mergeLlmFindings (preFindings : List CheckFinding) (parsed : LlmGoalResponse) :
    List CheckFinding :=
  let llmFindings := (parsed.findings.getD []).map sanitizeGoalFinding
  let seen := seenIds preFindings
  let unique := llmFindings.filter (fun f =>
    match f.item_id with
    | none => true
    | some s => s = "" ∨ s ∉ seen)
  preFindings ++ unique

/-- `runGoalQualityCheck`, stages of the generic runner inlined.
`goalsData` is the input after `extractGoals` (`none`: file missing),
`now` the epoch used by the pre-filter, `timestamp`/`dur` the clock reads
attached to the produced result. -/
def runGoalQualityCheck (goalsData : Option (List PendingGoal)) (now : Int)
    (timestamp : String) (dur : Int) (llmResult : LlmResult LlmGoalResponse) :
    CheckResult :=
  match goalsData with
  | none =>
    { check_name := "cognitive:goal_quality", severity := .ok
      detail := "Goals file not found — check skipped"
      timestamp := timestamp, duration_ms := dur }
  | some goals =>
    if goals.isEmpty then
      { check_name := "cognitive:goal_quality", severity := .ok
        detail := "No pending goals found"
        timestamp := timestamp, duration_ms := dur }
    else
      let preFindings := preFilterGoals goals now
      let preSeverity : Severity := if preFindings.length > 0 then .warn else .ok
      match llmResult.content with
      | none =>
        { check_name := "cognitive:goal_quality", severity := preSeverity
          detail := llmFailMessage llmResult.error ++ " — "
            ++ toString preFindings.length ++ " pre-filter findings"
          findings := some preFindings
          timestamp := timestamp, model_used := some llmResult.model
          tokens_used := some 0, duration_ms := dur }
      | some none =>
        { check_name := "cognitive:goal_quality", severity := preSeverity
          detail := "LLM response parsing failed — "
            ++ toString preFindings.length ++ " pre-filter findings"
          findings := some preFindings
          timestamp := timestamp, model_used := some llmResult.model
          tokens_used := some llmResult.tokens, duration_ms := dur }
      | some (some parsed) =>
        let allFindings := mergeLlmFindings preFindings parsed
        let severity := worstSeverity [parseSeverityString parsed.severity, preSeverity]
        { check_name := "cognitive:goal_quality", severity := severity
          detail := parsed.detail.getD (toString allFindings.length ++ " findings")
          findings := some allFindings
          timestamp := timestamp, model_used := some llmResult.model
          tokens_used := some llmResult.tokens, duration_ms := dur }

/-! ## CK-02 Thread Health (`src/checks/thread-health.ts`)

This check does not use the generic runner; it spells out the same
protocol inline, with its own local `parseSeverityString` (identical) and
local two-argument `worstSeverity` (`worstSeverity2` above).  The input
is taken after `extractThreads`. -/

/-- `ThreadEntry`, restricted to the fields the check reads. -/
structure ThreadEntry where
  id : String
  title : String
  status : Option String := none
  last_activity : Option DateVal := none
deriving DecidableEq, Repr

/-- `preFilterThreads`: flag every `open` thread whose `last_activity`
parses and is more than `staleDays` days old. -/
def preFilterThreads (threads : List ThreadEntry) (staleDays : Int) (now : Int) :
    List CheckFinding :=
  let staleMs := staleDays * 24 * 60 * 60 * 1000
  threads.flatMap (fun thread =>
    if thread.status ≠ some "open" then []
    else
      match thread.last_activity with
      | none => []
      | some d =>
        match d.ms with
        | some lastMs =>
          if now - lastMs > staleMs then
            let daysSince := jsRound (((now - lastMs : Int) : ℚ) / (24 * 60 * 60 * 1000))
            [{ thread_id := some thread.id
               issue := "stale"
               detail := "Thread \"" ++ thread.title ++ "\" has no update for "
                 ++ toString daysSince ++ " days"
               days_since_update := some daysSince
               recommendation := some "Archive or update thread" }]
          else []
        | none => [])

/-- One element of `LlmThreadResponse.findings`. -/
structure RawThreadFinding where
  thread_id : Option String := none
  issue : Option String := none
  detail : Option String := none
  days_since_update : Option Int := none
  recommendation : Option String := none
deriving DecidableEq, Repr

/-- `LlmThreadResponse`. -/
structure LlmThreadResponse where
  severity : Option String := none
  detail : Option String := none
  findings : Option (List RawThreadFinding) := none
deriving DecidableEq, Repr

/-- The element-wise sanitisation `runThreadHealthCheck` applies to the
LLM findings. -/
def sanitizeThreadFinding (f : RawThreadFinding) : CheckFinding :=
  { thread_id := f.thread_id
    issue := f.issue.getD "unknown"
    detail := f.detail.getD ""
    days_since_update := f.days_since_update
    recommendation := f.recommendation }

/-- The id set `new Set(preFindings.map(f => f.thread_id).filter(Boolean))`. -/
def seenThreadIds (preFindings : List CheckFinding) : List String :=
  ((preFindings.map (·.thread_id)).filterMap id).filter (· ≠ "")

/-- The merge step of `runThreadHealthCheck`: sanitise, dedup against the
pre-filter thread ids, append after the pre-filter findings. -/
def mergeThreadFindings (preFindings : List CheckFinding) (parsed : LlmThreadResponse) :
    List CheckFinding :=
  let llmFindings := (parsed.findings.getD []).map sanitizeThreadFinding
  let seen := seenThreadIds preFindings
  let unique := llmFindings.filter (fun f =>
    match f.thread_id with
    | none => true
    | some s => s = "" ∨ s ∉ seen)
  preFindings ++ unique

/-- `runThreadHealthCheck`. `threadsData` is the input after
`extractThreads` (`none`: file missing). -/
def runThreadHealthCheck (threadsData : Option (List ThreadEntry)) (staleDays : Int)
    (now : Int) (timestamp : String) (dur : Int)
    (llmResult : LlmResult LlmThreadResponse) : CheckResult :=
  match threadsData with
  | none =>
    { check_name := "cognitive:thread_health", severity := .ok
      detail := "Threads file not found — check skipped"
      timestamp := timestamp, duration_ms := dur }
  | some threads =>
    if threads.isEmpty then
      { check_name := "cognitive:thread_health", severity := .ok
        detail := "No threads found"
        timestamp := timestamp, duration_ms := dur }
    else
      let preFindings := preFilterThreads threads staleDays now
      match llmResult.content with
      | none =>
        { check_name := "cognitive:thread_health"
          severity := if preFindings.length > 0 then .warn else .ok
          detail := llmFailMessage llmResult.error ++ " — "
            ++ toString preFindings.length ++ " pre-filter findings"
          findings := some preFindings
          timestamp := timestamp, model_used := some llmResult.model
          tokens_used := some 0, duration_ms := dur }
      | some none =>
        { check_name := "cognitive:thread_health"
          severity := if preFindings.length > 0 then .warn else .ok
          detail := "LLM response parsing failed — "
            ++ toString preFindings.length ++ " pre-filter findings"
          findings := some preFindings
          timestamp := timestamp, model_used := some llmResult.model
          tokens_used := some llmResult.tokens, duration_ms := dur }
      | some (some parsed) =>
        let allFindings := mergeThreadFindings preFindings parsed
        let llmSeverity := parseSeverityString parsed.severity
        let preSeverity : Severity := if preFindings.length > 0 then .warn else .ok
        { check_name := "cognitive:thread_health"
          severity := worstSeverity2 llmSeverity preSeverity
          detail := parsed.detail.getD (toString allFindings.length ++ " findings")
          findings := some allFindings
          timestamp := timestamp, model_used := some llmResult.model
          tokens_used := some llmResult.tokens, duration_ms := dur }

/-! ## CK-05 Bootstrap Integrity (`src/checks/bootstrap-integrity.ts`)

Runs through the generic runner with a trivial pre-filter
(`severity ok, 0 findings`).  `readInput` loads the manifest text via
`readTextInput` (truncated to 4000 chars): `content = none` models a
missing/unreadable file and short-circuits with a terminal `warn`
result before the LLM is ever called. -/

structure RawBootstrapFinding where
  issue : Option String := none
  line : Option String := none
  detail : Option String := none
  recommendation : Option String := none
deriving DecidableEq, Repr

structure LlmBootstrapResponse where
  severity : Option String := none
  detail : Option String := none
  findings : Option (List RawBootstrapFinding) := none
deriving DecidableEq, Repr

/-- `parseFindings` from `bootstrap-integrity.ts`. -/
def parseBootstrapFindings (parsed : LlmBootstrapResponse) : List CheckFinding :=
  (parsed.findings.getD []).map (fun f =>
    { issue := f.issue.getD "unknown"
      line := f.line
      detail := f.detail.getD ""
      recommendation := f.recommendation })

/-- `runBootstrapIntegrityCheck`, runner stages inlined.  `content` is
the `readTextInput` result for the manifest path. -/
def runBootstrapIntegrityCheck (content : Option String) (timestamp : String)
    (dur : Int) (llmResult : LlmResult LlmBootstrapResponse) : CheckResult :=
  match content with
  | none =>
    { check_name := "cognitive:bootstrap_integrity", severity := .warn
      detail := "BOOTSTRAP.md not found — cannot verify integrity"
      timestamp := timestamp, duration_ms := dur }
  | some _ =>
    match llmResult.content with
    | none =>
      { check_name := "cognitive:bootstrap_integrity", severity := .ok
        detail := llmFailMessage llmResult.error ++ " — check skipped"
        timestamp := timestamp, model_used := some llmResult.model
        tokens_used := some 0, duration_ms := dur }
    | some none =>
      { check_name := "cognitive:bootstrap_integrity", severity := .ok
        detail := "LLM response parsing failed — check skipped"
        timestamp := timestamp, model_used := some llmResult.model
        tokens_used := some llmResult.tokens, duration_ms := dur }
    | some (some parsed) =>
      let findings := parseBootstrapFindings parsed
      { check_name := "cognitive:bootstrap_integrity"
        severity := parseSeverityString parsed.severity
        detail := parsed.detail.getD (toString findings.length ++ " findings")
        findings := some findings
        timestamp := timestamp, model_used := some llmResult.model
        tokens_used := some llmResult.tokens, duration_ms := dur }

/-! ## CK-06 Recommendations (`src/checks/recommendations.ts`)

Runs through the generic runner with a trivial pre-filter and a
`readInput` that never skips (its input is the synthesized findings
summary of the prior checks' results plus current daemon issues,
which — like the other checks' `buildPrompt` output — only feeds the
external LLM and is dropped here). -/

/-- One element of `LlmRecommendationsResponse.recommendations`. -/
structure RawRecommendation where
  type : Option String := none
  target : Option String := none
  reason : Option String := none
  priority : Option String := none
deriving DecidableEq, Repr

/-- `LlmRecommendationsResponse`. -/
structure LlmRecommendationsResponse where
  severity : Option String := none
  detail : Option String := none
  recommendations : Option (List RawRecommendation) := none
deriving DecidableEq, Repr

/-- `parseRecommendations`: truncate to `maxRecommendations`
(`slice(0, max)`), default the string fields, and coerce any priority
outside low/medium/high to `low`. -/
def parseRecommendations (parsed : LlmRecommendationsResponse)
    (max : Nat) : List Recommendation :=
  ((parsed.recommendations.getD []).take max).map (fun r =>
    { type := r.type.getD "maintenance"
      target := r.target.getD "unknown"
      reason := r.reason.getD ""
      priority :=
        if r.priority = some "low" ∨ r.priority = some "medium" ∨ r.priority = some "high"
        then r.priority.getD "low" else "low" })

/-- `runRecommendationsCheck`, runner stages inlined.  The input stage
always succeeds, so the only branching is on the LLM outcome. -/
def runRecommendationsCheck (maxRecommendations : Nat) (timestamp : String)
    (dur : Int) (llmResult : LlmResult LlmRecommendationsResponse) : CheckResult :=
  match llmResult.content with
  | none =>
    { check_name := "cognitive:recommendations", severity := .ok
      detail := llmFailMessage llmResult.error ++ " — no recommendations"
      recommendations := some []
      timestamp := timestamp, model_used := some llmResult.model
      tokens_used := some 0, duration_ms := dur }
  | some none =>
    { check_name := "cognitive:recommendations", severity := .ok
      detail := "LLM response parsing failed — no recommendations"
      recommendations := some []
      timestamp := timestamp, model_used := some llmResult.model
      tokens_used := some llmResult.tokens, duration_ms := dur }
  | some (some parsed) =>
    let recs := parseRecommendations parsed maxRecommendations
    { check_name := "cognitive:recommendations"
      severity := parseSeverityString parsed.severity
      detail := parsed.detail.getD (toString recs.length ++ " recommendations generated")
      recommendations := some recs
      timestamp := timestamp, model_used := some llmResult.model
      tokens_used := some llmResult.tokens, duration_ms := dur }

/-! ## LLM client (`src/llm-client.ts`)

`generate` attempts the primary provider, falls back on any failure
(`content === null` from `sendHttpRequest`), and reports a combined error
when both fail.  The two HTTP round trips are external: their outcomes
enter as `RawCompletion` values, and `durationMs` (a wall-clock
difference) as a parameter. -/

structure LlmProviderConfig where
  provider : String
  model : String
deriving DecidableEq, Repr

/-- `RawCompletion`: outcome of one `sendHttpRequest` round trip. -/
structure RawCompletion where
  content : Option String
  tokens : Int
  error : Option String := none
deriving DecidableEq, Repr

/-- The `LlmResponse` shape `generate` resolves with. -/
structure LlmGenResponse where
  content : Option String
  model : String
  tokens : Int
  durationMs : Int
  error : Option String := none
deriving DecidableEq, Repr

/-- The provider identifier `provider/model`. -/
def providerId (c : LlmProviderConfig) : String :=
  c.provider ++ "/" ++ c.model

/-- `generate` from `createLlmClient`: `prim` and `fb` are the outcomes
of the primary and fallback attempts. -/
def generate (primary fallback : LlmProviderConfig) (prim fb : RawCompletion)
    (durationMs : Int) : LlmGenResponse :=
  match prim.content with
  | some c =>
    { content := some c, model := providerId primary
      tokens := prim.tokens, durationMs := durationMs }
  | none =>
    match fb.content with
    | some c =>
      { content := some c, model := providerId fallback
        tokens := fb.tokens, durationMs := durationMs }
    | none =>
      { content := none, model := providerId primary
        tokens := 0, durationMs := durationMs
        error := some ("Both providers failed. Primary: " ++ prim.error.getD "unknown"
          ++ "; Fallback: " ++ fb.error.getD "unknown") }

/-! ## CK-04 Anomaly Detection (`src/checks/anomaly-detection.ts`)

Directory sizes come from the file system; they enter as
`dirs : List (String × Option ℚ)` — per monitored directory its label
and the `getDirSizeMb` result (`none`: directory missing/unreadable). -/

/-- One `HistorySnapshot`: timestamp plus the numeric metrics map (the
reader only retains number-valued entries). -/
structure HistorySnapshot where
  timestamp : DateVal
  metrics : List (String × ℚ)
deriving DecidableEq, Repr

structure LeukoHistory where
  snapshots : List HistorySnapshot
deriving DecidableEq, Repr

/-- The scan loop of `detectTrends`: the list holds the adjacent value
pairs `(prev, curr)` in scan order (most recent step first); `u`/`d` are
the running `consecutiveUp`/`consecutiveDown` counters.  A strictly
increasing step counts up and zeroes the down counter, a strictly
decreasing step counts down and zeroes the up counter, and an equal step
stops the scan (`break`). -/
def scanUpDown : List (ℚ × ℚ) → Nat → Nat → Nat × Nat
  | [], u, d => (u, d)
  | (prev, curr) :: rest, u, d =>
    if curr > prev then scanUpDown rest (u + 1) 0
    else if curr < prev then scanUpDown rest 0 (d + 1)
    else (u, d)

/-- The metric's value sequence: snapshots that carry the metric, in file
order (oldest first). -/
def metricValues (h : LeukoHistory) (metricName : String) : List ℚ :=
  h.snapshots.filterMap (fun s => s.metrics.lookup metricName)

/-- The adjacent pairs of `metricValues`, most recent step first
(the loop runs `i` from `values.length - 1` down to `1`). -/
def trendPairs (h : LeukoHistory) (metricName : String) : List (ℚ × ℚ) :=
  let values := metricValues h metricName
  (values.zip values.tail).reverse

inductive TrendDirection where
  | growing
  | shrinking
  | stable
deriving DecidableEq, Repr

/-- `detectTrends`: needs at least 3 snapshots and 3 metric values,
then runs the backward scan; a final down count ≥ 3 reports `shrinking`,
a final up count ≥ 3 reports `growing`, anything else is `stable`. -/
def detectTrends (history : Option LeukoHistory) (metricName : String) :
    Nat × TrendDirection :=
  match history with
  | none => (0, .stable)
  | some h =>
    if h.snapshots.length < 3 then (0, .stable)
    else
      let values := metricValues h metricName
      if values.length < 3 then (0, .stable)
      else
        let ud := scanUpDown (trendPairs h metricName) 0 0
        if ud.2 ≥ 3 then (ud.2, .shrinking)
        else if ud.1 ≥ 3 then (ud.1, .growing)
        else (0, .stable)

/-- The anomaly entry the tracked-metric loop of
`runAnomalyDetectionCheck` pushes for one metric (or `none`). -/
def trendAnomaly (history : Option LeukoHistory) (metric : String) :
    Option AnomalyEntry :=
  let t := detectTrends history metric
  if t.2 = .shrinking ∧ t.1 ≥ 5 then
    some { metric := metric, current := (t.1 : ℚ), baseline := 0
           deviation := toString t.1 ++ " consecutive decreases — possible data loss"
           severity := .critical }
  else if t.2 = .shrinking ∧ t.1 ≥ 3 then
    some { metric := metric, current := (t.1 : ℚ), baseline := 0
           deviation := toString t.1 ++ " consecutive decreases"
           severity := .warn }
  else none

/-- The baseline-snapshot selection of the directory-growth pass:
`history.snapshots.find(s => !isNaN(ts) && ts < weekAgo)` — the first
snapshot in file order whose timestamp parses and is older than
`weekAgo`. -/
def findBaselineSnapshot (h : LeukoHistory) (weekAgo : Int) : Option HistorySnapshot :=
  h.snapshots.find? (fun s =>
    match s.timestamp.ms with
    | some ts => decide (ts < weekAgo)
    | none => false)

/-- The anomaly entry the directory-growth pass pushes for one monitored
directory whose current size `currentMb` was computable (or `none`). -/
def dirGrowthAnomaly (history : Option LeukoHistory) (label : String)
    (currentMb : ℚ) (weekAgo : Int) : Option AnomalyEntry :=
  match history with
  | none => none
  | some h =>
    if h.snapshots.length > 0 then
      match findBaselineSnapshot h weekAgo with
      | some baselineSnapshot =>
        match baselineSnapshot.metrics.lookup (label ++ "_dir_mb") with
        | some baselineMb =>
          if baselineMb > 0 then
            let ratio := currentMb / baselineMb
            if ratio > 5 then
              some { metric := label ++ "_dir_mb", current := currentMb
                     baseline := baselineMb
                     deviation := toFixed1 ratio ++ "x growth in 7 days"
                     severity := .critical }
            else if ratio > 2 then
              some { metric := label ++ "_dir_mb", current := currentMb
                     baseline := baselineMb
                     deviation := toFixed1 ratio ++ "x growth in 7 days"
                     severity := .warn }
            else none
          else none
        | none => none
      | none => none
    else none

/-- JS object property write: replace in place if the key exists, else
append (used for the `baselines` record). -/
def setBaseline : List (String × ℚ) → String → ℚ → List (String × ℚ)
  | [], k, v => [(k, v)]
  | (k', v') :: rest, k, v =>
    if k' = k then (k, v) :: rest else (k', v') :: setBaseline rest k v

/-- The overall-severity loop of `runAnomalyDetectionCheck`: walk the
anomalies carrying the current severity, stop at the first `critical`. -/
def anomalySevLoop : List AnomalyEntry → Severity → Severity
  | [], acc => acc
  | a :: rest, acc =>
    if a.severity = .critical then .critical
    else if a.severity = .warn then anomalySevLoop rest .warn
    else anomalySevLoop rest acc

/-- The tracked metric names. -/
def trackedMetrics : List String :=
  ["fact_count", "goal_count", "thread_count"]

/-- `runAnomalyDetectionCheck`. `dirs` pairs each monitored directory's
label with its `getDirSizeMb` result; `now` is the clock read used for
the 7-day cutoff. -/
def runAnomalyDetectionCheck (dirs : List (String × Option ℚ))
    (history : Option LeukoHistory) (now : Int) (timestamp : String) (dur : Int) :
    CheckResult :=
  let weekAgo := now - 7 * 24 * 60 * 60 * 1000
  let dirResults := dirs.filterMap (fun p => p.2.map (fun mb => (p.1, mb)))
  let baselines := dirResults.foldl
    (fun acc p => setBaseline acc (p.1 ++ "_dir_mb") p.2) []
  let dirAnomalies := dirResults.filterMap
    (fun p => dirGrowthAnomaly history p.1 p.2 weekAgo)
  let trendAnomalies := trackedMetrics.filterMap (trendAnomaly history)
  let anomalies := dirAnomalies ++ trendAnomalies
  let severity := anomalySevLoop anomalies .ok
  { check_name := "cognitive:anomaly_detection"
    severity := severity
    detail := if anomalies.isEmpty then "All metrics within normal range"
      else toString anomalies.length ++ " anomaly(s) detected"
    anomalies := some anomalies
    baselines := some baselines
    timestamp := timestamp, duration_ms := dur }

/-! ## CK-03 Pipeline Correlation (`src/checks/pipeline-correlation.ts`)

The four gathered signals (NATS message count via CLI, threads-file age,
cron status derived from the daemon checks, business-hours flag) are
external observations; they enter as a `PipelineSignals` value.
`getCronStatus` is included since it is pure over the daemon checks. -/

structure DaemonCheck where
  check_name : String
  severity : Severity
  detail : String
deriving DecidableEq, Repr

structure CronStatus where
  allOk : Bool
  staleOutputs : Nat
deriving DecidableEq, Repr

/-- `getCronStatus`: all `cron_health:*` checks ok?  How many
`output_freshness:*` checks are non-ok? -/
def getCronStatus (daemonChecks : List DaemonCheck) : CronStatus :=
  daemonChecks.foldl
    (fun st check =>
      let st := if check.check_name.startsWith "cron_health:" ∧ check.severity ≠ .ok
        then { st with allOk := false } else st
      if check.check_name.startsWith "output_freshness:" ∧ check.severity ≠ .ok
        then { st with staleOutputs := st.staleOutputs + 1 } else st)
    { allOk := true, staleOutputs := 0 }

structure PipelineSignals where
  natsTotal : Option ℚ
  threadsAgeH : Option ℚ
  cronStatus : CronStatus
  inBusinessHours : Bool
deriving DecidableEq, Repr

/-- `addNatsThreadCorrelation` (rule 1): needs a positive NATS total and
a known threads age; age > 4 h → `consumer_disconnected`, else age >
correlation window → `consumer_slow`. -/
def addNatsThreadCorrelation (s : PipelineSignals) (windowH : ℚ) :
    List CorrelationEntry :=
  match s.natsTotal, s.threadsAgeH with
  | some natsTotal, some age =>
    if natsTotal ≤ 0 then []
    else if age > 4 then
      [{ input := "nats_total_messages", input_value := natsTotal
         output := "threads_age_hours", output_value := jsRound10 age
         diagnosis := "consumer_disconnected" }]
    else if age > windowH then
      [{ input := "nats_total_messages", input_value := natsTotal
         output := "threads_age_hours", output_value := jsRound10 age
         diagnosis := "consumer_slow" }]
    else []
  | _, _ => []

/-- `addPipelineDisconnectCorrelation` (rule 2). -/
def addPipelineDisconnectCorrelation (s : PipelineSignals) : List CorrelationEntry :=
  if s.cronStatus.allOk ∧ s.cronStatus.staleOutputs ≥ 2 then
    [{ input := "crons_all_ok", input_value := 1
       output := "stale_outputs", output_value := (s.cronStatus.staleOutputs : ℚ)
       diagnosis := "pipeline_disconnected" }]
  else []

/-- `addEventSourceSilentCorrelation` (rule 3). -/
def addEventSourceSilentCorrelation (s : PipelineSignals) : List CorrelationEntry :=
  match s.natsTotal with
  | some natsTotal =>
    if natsTotal = 0 ∧ s.inBusinessHours then
      [{ input := "nats_events", input_value := 0
         output := "business_hours", output_value := 1
         diagnosis := "event_source_silent" }]
    else []
  | none => []

/-- `buildCorrelations`: the three rules, evaluated independently, in
source order. -/
def buildCorrelations (s : PipelineSignals) (windowH : ℚ) : List CorrelationEntry :=
  addNatsThreadCorrelation s windowH
    ++ addPipelineDisconnectCorrelation s
    ++ addEventSourceSilentCorrelation s

/-- `computeCorrelationSeverity`: fold over the correlations;
`consumer_disconnected` contributes `critical` when its recorded
`output_value` exceeds 4 and `warn` otherwise; `pipeline_disconnected`
and `event_source_silent` contribute `warn`; any other diagnosis
(notably `consumer_slow`) falls through and contributes nothing. -/
def computeCorrelationSeverity (correlations : List CorrelationEntry) : Severity :=
  correlations.foldl
    (fun severity c =>
      if c.diagnosis = "consumer_disconnected" ∧ c.output_value > 4 then
        worstSeverity [severity, .critical]
      else if c.diagnosis = "consumer_disconnected" then
        worstSeverity [severity, .warn]
      else if c.diagnosis = "pipeline_disconnected" ∨ c.diagnosis = "event_source_silent" then
        worstSeverity [severity, .warn]
      else severity)
    .ok

/-- `runPipelineCorrelationCheck` over gathered signals. -/
def runPipelineCorrelationCheck (s : PipelineSignals) (windowH : ℚ)
    (timestamp : String) (dur : Int) : CheckResult :=
  let correlations := buildCorrelations s windowH
  let severity := computeCorrelationSeverity correlations
  { check_name := "cognitive:pipeline_correlation"
    severity := severity
    detail := if correlations.isEmpty then "All pipeline correlations normal"
      else toString correlations.length ++ " correlation issue(s) detected"
    correlations := some correlations
    timestamp := timestamp, duration_ms := dur }

/-! ## Status writer (`src/status-writer.ts`)

The persisted documents are JSON; file contents are represented
structurally (`FileContent`), with `malformed` standing for text that
`JSON.parse` rejects.  The write path is modelled as the sequence of file
system operations the writer performs (write the `.l2tmp` sibling, then
rename it over the target), applied to a path → content map. -/

inductive Json where
  | null
  | bool (b : Bool)
  | num (q : ℚ)
  | str (s : String)
  | arr (elements : List Json)
  | obj (fields : List (String × Json))

inductive FileContent where
  | jsonDoc (j : Json)
  | malformed

/-- JS object property write on a field list (replace in place, else
append) — the effect of a spread override or an index assignment. -/
def setField : List (String × Json) → String → Json → List (String × Json)
  | [], k, v => [(k, v)]
  | (k', v') :: rest, k, v =>
    if k' = k then (k, v) :: rest else (k', v') :: setField rest k v

/-- First-match field lookup (JS property read; parsed JSON objects have
unique keys). -/
def getField : List (String × Json) → String → Option Json
  | [], _ => none
  | (k', v') :: rest, k => if k' = k then some v' else getField rest k

/-- The write payload: serialised `cognitive_checks` and `cognitive_meta`
values, plus the optional `sitrep_collectors`. -/
structure WritePayload where
  cognitive_checks : Json
  cognitive_meta : Json
  sitrep_collectors : Option Json := none

/-- First-match path lookup in the file-system map. -/
def lookupPath : List (String × FileContent) → String → Option FileContent
  | [], _ => none
  | (p', c') :: rest, p => if p' = p then some c' else lookupPath rest p

/-- The `existing` object `writeCognitiveResults` starts from: the parsed
status document when it exists, parses, and is a plain object — otherwise
the empty object (missing file, malformed JSON, or non-object JSON). -/
def readExistingFields (fs : List (String × FileContent)) (statusPath : String) :
    List (String × Json) :=
  match lookupPath fs statusPath with
  | some (.jsonDoc (.obj fields)) => fields
  | _ => []

/-- The merge step: spread the existing object, override
`cognitive_checks` and `cognitive_meta`, then assign `sitrep_collectors`
if the payload carries one. -/
def mergeFields (existing : List (String × Json)) (payload : WritePayload) :
    List (String × Json) :=
  let merged := setField (setField existing "cognitive_checks" payload.cognitive_checks)
    "cognitive_meta" payload.cognitive_meta
  match payload.sitrep_collectors with
  | some v => setField merged "sitrep_collectors" v
  | none => merged

inductive FsOp where
  | write (path : String) (content : FileContent)
  | rename (src dst : String)

/-- Path map update (paths are unique keys). -/
def setPath : List (String × FileContent) → String → FileContent →
    List (String × FileContent)
  | [], p, c => [(p, c)]
  | (p', c') :: rest, p, c =>
    if p' = p then (p, c) :: rest else (p', c') :: setPath rest p c

/-- Apply one file-system operation. -/
def applyOp (fs : List (String × FileContent)) : FsOp → List (String × FileContent)
  | .write p c => setPath fs p c
  | .rename src dst =>
    match lookupPath fs src with
    | some c => setPath (fs.filter (fun e => e.1 ≠ src)) dst c
    | none => fs

def applyOps (fs : List (String × FileContent)) (ops : List FsOp) :
    List (String × FileContent) :=
  ops.foldl applyOp fs

/-- `writeCognitiveResults`: read-merge, then (when the target directory
exists) write the merged document to the `.l2tmp` sibling and rename it
over the target.  Returns the success flag and the performed operation
sequence. -/
def writeCognitiveResults (fs : List (String × FileContent)) (statusPath : String)
    (payload : WritePayload) (dirExists : Bool) : Bool × List FsOp :=
  let existing := readExistingFields fs statusPath
  let merged := mergeFields existing payload
  let tmpPath := statusPath ++ ".l2tmp"
  if dirExists then
    (true, [.write tmpPath (.jsonDoc (.obj merged)), .rename tmpPath statusPath])
  else
    (false, [])

/-! ## Escalation tracking (`src/index.ts`, `runAllChecks`)

After all checks complete, `runAllChecks` backfills the escalation
fields of every fresh result by comparing against the previous run's
results read from the status document — but only when that document was
readable and carried a `cognitive_checks` array
(`if (status?.cognitive_checks) { ... }`). -/

/-- The per-result mutation of the escalation loop. -/
def backfillOne (prevChecks : List CheckResult) (result : CheckResult) : CheckResult :=
  let prev := prevChecks.find? (fun c => c.check_name = result.check_name)
  if result.severity = .critical then
    let prevCount := (prev.bind (·.consecutive_critical_count)).getD 0
    let count := prevCount + 1
    { result with
        consecutive_critical_count := some count
        first_critical_at := some ((prev.bind (·.first_critical_at)).getD result.timestamp)
        escalation_needed := if count ≥ 3 then some true else result.escalation_needed }
  else
    { result with consecutive_critical_count := some 0 }

/-- The escalation pass: the identity when the previous status document
was absent, unreadable, or carried no `cognitive_checks` array
(`prevChecks = none`); otherwise backfill each result. -/
def trackEscalation (prevChecks : Option (List CheckResult))
    (results : List CheckResult) : List CheckResult :=
  match prevChecks with
  | some l => results.map (backfillOne l)
  | none => results

/-! ## Spec-side definitions

Definitions following the specification's words, for comparison with the
source-derived ones above. -/

/-- The dedup rule as the specification words it: an LLM finding is kept
exactly when its subject id is absent or does not equal any pre-filter
finding's subject id (no special treatment of the empty string). -/
def mergeLlmFindingsClaimed (preFindings : List CheckFinding)
    (parsed : LlmGoalResponse) : List CheckFinding :=
  let llmFindings := (parsed.findings.getD []).map sanitizeGoalFinding
  preFindings ++ llmFindings.filter (fun f =>
    match f.item_id with
    | none => true
    | some s => preFindings.all (fun p => p.item_id ≠ some s))

/-- The dedup rule actually implemented, phrased pointwise (used to state
the amended C4): keep an LLM finding when its subject id is absent, is
the empty string, or differs from every pre-filter subject id. -/
def keepByClaim (preIds : List (Option String)) (subjectId : Option String) : Bool :=
  match subjectId with
  | none => true
  | some s => s = "" || preIds.all (fun i => i ≠ some s)

/-- The baseline-snapshot selection as the claim words it: the *nearest*
snapshot older than 7 days.  Snapshots are stored in append (oldest
first) order, so the nearest qualifying one is the last. -/
def nearestSnapshotOlderThan (h : LeukoHistory) (weekAgo : Int) :
    Option HistorySnapshot :=
  (h.snapshots.filter (fun s =>
    match s.timestamp.ms with
    | some ts => decide (ts < weekAgo)
    | none => false)).getLast?

/-- The directory-growth anomaly as the claim words it: identical to
`dirGrowthAnomaly` except that the baseline comes from the nearest
(rather than the first) snapshot older than 7 days. -/
def dirGrowthAnomalySpec (history : Option LeukoHistory) (label : String)
    (currentMb : ℚ) (weekAgo : Int) : Option AnomalyEntry :=
  match history with
  | none => none
  | some h =>
    if h.snapshots.length > 0 then
      match nearestSnapshotOlderThan h weekAgo with
      | some baselineSnapshot =>
        match baselineSnapshot.metrics.lookup (label ++ "_dir_mb") with
        | some baselineMb =>
          if baselineMb > 0 then
            let ratio := currentMb / baselineMb
            if ratio > 5 then
              some { metric := label ++ "_dir_mb", current := currentMb
                     baseline := baselineMb
                     deviation := toFixed1 ratio ++ "x growth in 7 days"
                     severity := .critical }
            else if ratio > 2 then
              some { metric := label ++ "_dir_mb", current := currentMb
                     baseline := baselineMb
                     deviation := toFixed1 ratio ++ "x growth in 7 days"
                     severity := .warn }
            else none
          else none
        | none => none
      | none => none
    else none

/-- The per-correlation severity contribution implemented by
`computeCorrelationSeverity` (used to state the amended C7):
`consumer_disconnected` contributes `critical` when its recorded output
value exceeds 4 and `warn` otherwise; `pipeline_disconnected` and
`event_source_silent` contribute `warn`; every other diagnosis —
in particular `consumer_slow` — contributes `ok`. -/
def corrContribution (c : CorrelationEntry) : Severity :=
  if c.diagnosis = "consumer_disconnected" then
    (if c.output_value > 4 then .critical else .warn)
  else if c.diagnosis = "pipeline_disconnected" ∨ c.diagnosis = "event_source_silent" then
    .warn
  else .ok

/-! ## Concrete sample inputs (for witnesses and counterexamples) -/

/-- A goal whose `expires` date lies in the past of `now = 10`. -/
def expiredGoal : PendingGoal :=
  { id := "g1", title := "Ship release", expires := some { raw := "2026-01-01", ms := some 0 } }

/-- A goal whose id is the empty string and whose `expires` date lies in
the past of `now = 10`. -/
def emptyIdGoal : PendingGoal :=
  { id := "", title := "Untitled", expires := some { raw := "2026-01-01", ms := some 0 } }

/-- An LLM goal-quality reply carrying one finding whose `item_id` is the
empty string. -/
def emptyIdLlmReply : LlmGoalResponse :=
  { severity := some "ok", detail := some "1 issue"
    findings := some [{ item_id := some "", issue := some "noise" }] }

/-- An open thread whose `last_activity` (epoch 0) is 10 days before
`now = 864000000` (stale for `staleDays = 5`). -/
def staleThread : ThreadEntry :=
  { id := "t1", title := "Stale thread", status := some "open"
    last_activity := some { raw := "2026-01-01", ms := some 0 } }

/-- An unreachable-LLM outcome (both providers failed upstream). -/
def timeoutLlmG : LlmResult LlmGoalResponse :=
  { content := none, model := "ollama/qwen3:14b", tokens := 0, error := some "Timeout" }

/-- An unreachable-LLM outcome for the thread-health check. -/
def timeoutLlmT : LlmResult LlmThreadResponse :=
  { content := none, model := "ollama/qwen3:14b", tokens := 0, error := some "Timeout" }

/-- A parsed goal-quality LLM reply: severity `warn`, one finding
duplicating the pre-filter's id `g1` and one for a fresh id. -/
def goalReplyParsed : LlmGoalResponse :=
  { severity := some "warn", detail := some "2 issues"
    findings := some
      [{ item_id := some "g1", issue := some "expired" },
       { item_id := some "g9", issue := some "vague_title" }] }

/-- The LLM outcome delivering `goalReplyParsed`. -/
def goalLlmReply : LlmResult LlmGoalResponse :=
  { content := some (some goalReplyParsed), model := "ollama/qwen3:14b", tokens := 120 }

/-- A parsed thread-health LLM reply duplicating the pre-filter's id. -/
def threadReplyParsed : LlmThreadResponse :=
  { severity := some "ok", detail := some "1 issue"
    findings := some
      [{ thread_id := some "t1", issue := some "stale" },
       { thread_id := some "t2", issue := some "incomplete" }] }

/-- The LLM outcome delivering `threadReplyParsed`. -/
def threadLlmReply : LlmResult LlmThreadResponse :=
  { content := some (some threadReplyParsed), model := "ollama/qwen3:14b", tokens := 80 }

/-- The previous run's goal-quality result: two consecutive criticals. -/
def prevCriticalResult : CheckResult :=
  { check_name := "cognitive:goal_quality", severity := .critical
    detail := "bad", consecutive_critical_count := some 2
    first_critical_at := some "2026-02-01T00:00:00Z", timestamp := "2026-02-02T00:00:00Z" }

/-- A fresh critical goal-quality result (escalation fields unset). -/
def freshCriticalResult : CheckResult :=
  { check_name := "cognitive:goal_quality", severity := .critical
    detail := "still bad", timestamp := "2026-02-03T00:00:00Z" }

/-- Pipeline signals: 50 NATS messages, threads file 3 h old — only
`consumer_slow` fires for a 2 h correlation window. -/
def slowSignals : PipelineSignals :=
  { natsTotal := some 50, threadsAgeH := some 3
    cronStatus := { allOk := true, staleOutputs := 0 }, inBusinessHours := false }

/-- Pipeline signals: 100 NATS messages, threads file 5 h old —
`consumer_disconnected` fires. -/
def disconnectedSignals : PipelineSignals :=
  { natsTotal := some 100, threadsAgeH := some 5
    cronStatus := { allOk := true, staleOutputs := 0 }, inBusinessHours := false }

/-- History: six snapshots with `fact_count` strictly decreasing
(100, 95, 90, 85, 80, 75), timestamps 1..6. -/
def shrinkingHistory : LeukoHistory :=
  { snapshots :=
      [{ timestamp := { raw := "s1", ms := some 1 }, metrics := [("fact_count", 100)] },
       { timestamp := { raw := "s2", ms := some 2 }, metrics := [("fact_count", 95)] },
       { timestamp := { raw := "s3", ms := some 3 }, metrics := [("fact_count", 90)] },
       { timestamp := { raw := "s4", ms := some 4 }, metrics := [("fact_count", 85)] },
       { timestamp := { raw := "s5", ms := some 5 }, metrics := [("fact_count", 80)] },
       { timestamp := { raw := "s6", ms := some 6 }, metrics := [("fact_count", 75)] }] }

/-- History with two snapshots older than the cutoff `weekAgo = 200`:
the oldest recorded `memory_dir_mb = 10`, the nearest recorded
`memory_dir_mb = 100`. -/
def twoBaselineHistory : LeukoHistory :=
  { snapshots :=
      [{ timestamp := { raw := "t-30d", ms := some 0 }, metrics := [("memory_dir_mb", 10)] },
       { timestamp := { raw := "t-8d", ms := some 100 }, metrics := [("memory_dir_mb", 100)] }] }

/-- History with one snapshot older than the cutoff `weekAgo = 200`
recording `memory_dir_mb = 50` (the specification's scenario 3). -/
def scenario3History : LeukoHistory :=
  { snapshots :=
      [{ timestamp := { raw := "t-8d", ms := some 100 }, metrics := [("memory_dir_mb", 50)] }] }

/-- An existing status document owning the four L1 fields. -/
def l1StatusFs : List (String × FileContent) :=
  [("leuko-status.json", .jsonDoc (.obj
      [("last_check", .str "2026-02-23T10:00:00Z"),
       ("overall_severity", .str "warn"),
       ("daemon_checks", .arr [.obj [("check_name", .str "cron_health:extractor")]]),
       ("auto_heal_history", .arr [.str "healed"])]))]

/-- A write payload for the sample status document. -/
def samplePayload : WritePayload :=
  { cognitive_checks := .arr [.obj [("check_name", .str "cognitive:goal_quality")]]
    cognitive_meta := .obj [("last_run", .str "2026-02-23T12:00:00Z")] }

/-- The primary provider of the default configuration. -/
def primaryCfg : LlmProviderConfig :=
  { provider := "ollama", model := "qwen3:14b" }

/-- The fallback provider of the default configuration. -/
def fallbackCfg : LlmProviderConfig :=
  { provider := "litellm", model := "gemini/gemini-2.0-flash-lite" }

/-- A failed HTTP round trip (connection refused). -/
def refusedCompletion : RawCompletion :=
  { content := none, tokens := 0, error := some "connection refused" }

/-- An unreachable-LLM outcome for the bootstrap-integrity check. -/
def timeoutLlmB : LlmResult LlmBootstrapResponse :=
  { content := none, model := "ollama/qwen3:14b", tokens := 0, error := some "Timeout" }

/-- A parsed bootstrap reply (never consulted when the manifest is
missing). -/
def okLlmB : LlmResult LlmBootstrapResponse :=
  { content := some (some { severity := some "ok", detail := some "fine" })
    model := "ollama/qwen3:14b", tokens := 10 }

/-!
# Theorems
-/

/-- C9: when the bootstrap manifest is absent, the check returns a
terminal `warn` (not `ok`) result whose detail says integrity cannot be
verified, and the result does not depend on the LLM outcome at all (the
short-circuit happens before the LLM would be invoked). -/
theorem bootstrap_missing_manifest_warns (timestamp : String) (dur : Int)
    (llm1 llm2 : LlmResult LlmBootstrapResponse) :
    (runBootstrapIntegrityCheck none timestamp dur llm1).severity = .warn
    ∧ (runBootstrapIntegrityCheck none timestamp dur llm1).severity ≠ .ok
    ∧ (runBootstrapIntegrityCheck none timestamp dur llm1).detail
        = "BOOTSTRAP.md not found — cannot verify integrity"
    ∧ runBootstrapIntegrityCheck none timestamp dur llm1
        = runBootstrapIntegrityCheck none timestamp dur llm2 := by
  refine ⟨rfl, by simp [runBootstrapIntegrityCheck], rfl, rfl⟩

/-- C9 witness: with the manifest absent, an unreachable LLM and a
successful LLM produce the identical terminal `warn` result. -/
theorem bootstrap_missing_manifest_warns_witness :
    (runBootstrapIntegrityCheck none "2026-02-23T12:00:00Z" 3 timeoutLlmB).severity = .warn
    ∧ (runBootstrapIntegrityCheck none "2026-02-23T12:00:00Z" 3 timeoutLlmB).severity ≠ .ok
    ∧ (runBootstrapIntegrityCheck none "2026-02-23T12:00:00Z" 3 timeoutLlmB).detail
        = "BOOTSTRAP.md not found — cannot verify integrity"
    ∧ runBootstrapIntegrityCheck none "2026-02-23T12:00:00Z" 3 timeoutLlmB
        = runBootstrapIntegrityCheck none "2026-02-23T12:00:00Z" 3 okLlmB := by
  exact bootstrap_missing_manifest_warns "2026-02-23T12:00:00Z" 3 timeoutLlmB okLlmB

/-- C5: if both provider attempts fail, `generate` returns null content,
zero tokens, the primary's `provider/model` identifier, and a non-empty
error string combining both failure reasons; if either attempt succeeds,
the content and model are those of the provider that answered. -/
theorem generate_provider_chain (primary fallback : LlmProviderConfig)
    (prim fb : RawCompletion) (durationMs : Int) :
    (prim.content = none → fb.content = none →
      (generate primary fallback prim fb durationMs).content = none
      ∧ (generate primary fallback prim fb durationMs).tokens = 0
      ∧ (generate primary fallback prim fb durationMs).model = providerId primary
      ∧ (generate primary fallback prim fb durationMs).error
          = some ("Both providers failed. Primary: " ++ prim.error.getD "unknown"
              ++ "; Fallback: " ++ fb.error.getD "unknown")
      ∧ ∀ e, (generate primary fallback prim fb durationMs).error = some e → e ≠ "")
    ∧ (∀ c, prim.content = some c →
        (generate primary fallback prim fb durationMs).content = some c
        ∧ (generate primary fallback prim fb durationMs).model = providerId primary
        ∧ (generate primary fallback prim fb durationMs).tokens = prim.tokens)
    ∧ (∀ c, prim.content = none → fb.content = some c →
        (generate primary fallback prim fb durationMs).content = some c
        ∧ (generate primary fallback prim fb durationMs).model = providerId fallback
        ∧ (generate primary fallback prim fb durationMs).tokens = fb.tokens) := by
  refine ⟨fun h1 h2 => ?_, fun c hc => ?_, fun c h1 hc => ?_⟩
  · refine ⟨by simp [generate, h1, h2], by simp [generate, h1, h2],
      by simp [generate, h1, h2], by simp [generate, h1, h2], fun e he hcontra => ?_⟩
    simp [generate, h1, h2] at he
    subst hcontra
    have hlen := congrArg String.length he
    rw [String.length_append, String.length_append, String.length_append] at hlen
    have hc : ("Both providers failed. Primary: ").length = 32 := rfl
    have h0 : ("" : String).length = 0 := rfl
    omega
  · exact ⟨by simp [generate, hc], by simp [generate, hc], by simp [generate, hc]⟩
  · exact ⟨by simp [generate, h1, hc], by simp [generate, h1, hc], by simp [generate, h1, hc]⟩

/-- C5 witness: connection refused on both providers. -/
theorem generate_provider_chain_witness :
    (generate primaryCfg fallbackCfg refusedCompletion refusedCompletion 42).content = none
    ∧ (generate primaryCfg fallbackCfg refusedCompletion refusedCompletion 42).tokens = 0
    ∧ (generate primaryCfg fallbackCfg refusedCompletion refusedCompletion 42).model
        = "ollama/qwen3:14b"
    ∧ (generate primaryCfg fallbackCfg refusedCompletion refusedCompletion 42).error
        = some "Both providers failed. Primary: connection refused; Fallback: connection refused"
    ∧ "Both providers failed. Primary: connection refused; Fallback: connection refused" ≠ "" := by
  have h := (generate_provider_chain primaryCfg fallbackCfg
    refusedCompletion refusedCompletion 42).1 rfl rfl
  exact ⟨h.1, h.2.1, h.2.2.1, h.2.2.2.1,
    h.2.2.2.2 _ h.2.2.2.1⟩

/-- C10: when the previous status document is absent, unreadable, or has
no `cognitive_checks` array, the escalation backfill is skipped entirely
(`trackEscalation none` is the identity), and every freshly produced
check result of the run — all six check constructors, including the
recommendations check, whose severity can be `critical` — carries unset
escalation fields: a cold-start critical does not begin a streak at 1
and a cold-start non-critical is not reset to 0. -/
theorem escalation_skipped_on_cold_start (results : List CheckResult) :
    trackEscalation none results = results
    ∧ (∀ gd now ts dur llm,
        (runGoalQualityCheck gd now ts dur llm).consecutive_critical_count = none
        ∧ (runGoalQualityCheck gd now ts dur llm).escalation_needed = none
        ∧ (runGoalQualityCheck gd now ts dur llm).first_critical_at = none)
    ∧ (∀ td staleDays now ts dur llm,
        (runThreadHealthCheck td staleDays now ts dur llm).consecutive_critical_count = none
        ∧ (runThreadHealthCheck td staleDays now ts dur llm).escalation_needed = none
        ∧ (runThreadHealthCheck td staleDays now ts dur llm).first_critical_at = none)
    ∧ (∀ content ts dur llm,
        (runBootstrapIntegrityCheck content ts dur llm).consecutive_critical_count = none
        ∧ (runBootstrapIntegrityCheck content ts dur llm).escalation_needed = none
        ∧ (runBootstrapIntegrityCheck content ts dur llm).first_critical_at = none)
    ∧ (∀ dirs history now ts dur,
        (runAnomalyDetectionCheck dirs history now ts dur).consecutive_critical_count = none
        ∧ (runAnomalyDetectionCheck dirs history now ts dur).escalation_needed = none
        ∧ (runAnomalyDetectionCheck dirs history now ts dur).first_critical_at = none)
    ∧ (∀ s windowH ts dur,
        (runPipelineCorrelationCheck s windowH ts dur).consecutive_critical_count = none
        ∧ (runPipelineCorrelationCheck s windowH ts dur).escalation_needed = none
        ∧ (runPipelineCorrelationCheck s windowH ts dur).first_critical_at = none)
    ∧ (∀ maxRecs ts dur llm,
        (runRecommendationsCheck maxRecs ts dur llm).consecutive_critical_count = none
        ∧ (runRecommendationsCheck maxRecs ts dur llm).escalation_needed = none
        ∧ (runRecommendationsCheck maxRecs ts dur llm).first_critical_at = none) := by
  refine ⟨rfl, ?_, ?_, ?_, ?_, ?_, ?_⟩
  · intro gd now ts dur llm
    rcases gd with _ | gs
    · exact ⟨rfl, rfl, rfl⟩
    · by_cases hgs : gs.isEmpty <;>
        rcases hc : llm.content with _ | _ | p <;>
        simp [runGoalQualityCheck, hgs, hc]
  · intro td staleDays now ts dur llm
    rcases td with _ | tl
    · exact ⟨rfl, rfl, rfl⟩
    · by_cases htl : tl.isEmpty <;>
        rcases hc : llm.content with _ | _ | p <;>
        simp [runThreadHealthCheck, htl, hc]
  · intro content ts dur llm
    rcases content with _ | c
    · exact ⟨rfl, rfl, rfl⟩
    · rcases hc : llm.content with _ | _ | p <;>
        simp [runBootstrapIntegrityCheck, hc]
  · intro dirs history now ts dur
    exact ⟨rfl, rfl, rfl⟩
  · intro s windowH ts dur
    exact ⟨rfl, rfl, rfl⟩
  · intro maxRecs ts dur llm
    rcases hc : llm.content with _ | _ | p <;>
      simp [runRecommendationsCheck, hc]

/-- C3: the escalation backfill.  When a new result has a same-named
previous result `p`: a `critical` result gets
`consecutive_critical_count = p's count (0 when unset) + 1`,
`first_critical_at = p's value when set, else this run's timestamp`, and
`escalation_needed = true` as soon as the streak reaches 3 (in
particular, on the third consecutive critical); below 3 the flag is left
untouched.  A non-`critical` result has its count reset to 0. -/
theorem escalation_streak (prevChecks results : List CheckResult)
    (r p : CheckResult)
    (hfind : prevChecks.find? (fun c => c.check_name = r.check_name) = some p) :
    trackEscalation (some prevChecks) results = results.map (backfillOne prevChecks)
    ∧ (r.severity = .critical →
        (backfillOne prevChecks r).consecutive_critical_count
            = some (p.consecutive_critical_count.getD 0 + 1)
        ∧ (backfillOne prevChecks r).first_critical_at
            = some (p.first_critical_at.getD r.timestamp)
        ∧ (p.consecutive_critical_count.getD 0 + 1 ≥ 3 →
            (backfillOne prevChecks r).escalation_needed = some true)
        ∧ (p.consecutive_critical_count.getD 0 + 1 < 3 →
            (backfillOne prevChecks r).escalation_needed = r.escalation_needed))
    ∧ (r.severity ≠ .critical →
        (backfillOne prevChecks r).consecutive_critical_count = some 0) := by
  refine ⟨rfl, fun hcrit => ?_, fun hncrit => ?_⟩
  · unfold backfillOne
    rw [hfind]
    simp only [Option.some_bind]
    rw [if_pos hcrit]
    refine ⟨rfl, rfl, fun h3 => ?_, fun h3 => ?_⟩
    · show (if p.consecutive_critical_count.getD 0 + 1 ≥ 3 then some true
        else r.escalation_needed) = some true
      exact if_pos h3
    · show (if p.consecutive_critical_count.getD 0 + 1 ≥ 3 then some true
        else r.escalation_needed) = r.escalation_needed
      exact if_neg (by omega)
  · unfold backfillOne
    rw [hfind, if_neg hncrit]

/-- C3 witness: a third consecutive critical for
`cognitive:goal_quality` reaches count 3, keeps the original
`first_critical_at`, and sets `escalation_needed`. -/
theorem escalation_streak_witness :
    (backfillOne [prevCriticalResult] freshCriticalResult).consecutive_critical_count = some 3
    ∧ (backfillOne [prevCriticalResult] freshCriticalResult).first_critical_at
        = some "2026-02-01T00:00:00Z"
    ∧ (backfillOne [prevCriticalResult] freshCriticalResult).escalation_needed = some true := by
  have h := (escalation_streak [prevCriticalResult] [] freshCriticalResult
    prevCriticalResult (by rfl)).2.1 rfl
  refine ⟨?_, ?_, h.2.2.1 (by norm_num [prevCriticalResult])⟩
  · rw [h.1]; rfl
  · rw [h.2.1]; rfl

/-- Setting one field leaves every other field's lookup unchanged. -/
theorem getField_setField_ne (l : List (String × Json)) (kSet kGet : String)
    (v : Json) (hne : kGet ≠ kSet) :
    getField (setField l kSet v) kGet = getField l kGet := by
  induction l with
  | nil =>
    simp only [setField, getField]
    rw [if_neg (fun h => hne h.symm)]
  | cons hd tl ih =>
    obtain ⟨k', v'⟩ := hd
    simp only [setField]
    by_cases hk : k' = kSet
    · rw [if_pos hk]
      simp only [getField]
      rw [if_neg (fun h => hne h.symm), if_neg (fun h => hne (h.symm.trans hk))]
    · rw [if_neg hk]
      simp only [getField]
      by_cases hg : k' = kGet
      · rw [if_pos hg, if_pos hg]
      · rw [if_neg hg, if_neg hg, ih]

/-- Writing a path makes its lookup return the written content. -/
theorem lookupPath_setPath_self (fs : List (String × FileContent))
    (p : String) (c : FileContent) :
    lookupPath (setPath fs p c) p = some c := by
  induction fs with
  | nil => simp [setPath, lookupPath]
  | cons hd tl ih =>
    obtain ⟨p', c'⟩ := hd
    simp only [setPath]
    by_cases hp : p' = p
    · rw [if_pos hp]
      simp [lookupPath]
    · rw [if_neg hp]
      simp only [lookupPath]
      rw [if_neg hp, ih]

/-- C2: the status writer preserves every key of the existing status
document other than `cognitive_checks`, `cognitive_meta` and
`sitrep_collectors` — in particular the L1-owned keys — it starts from
the empty object when the existing document cannot be parsed (so no
parse failure can corrupt what it writes beyond the cognitive fields),
and it performs the write as a serialise-to-temporary-sibling followed
by a rename over the target path. -/
theorem writer_preserves_l1_region (fs : List (String × FileContent))
    (statusPath : String) (payload : WritePayload) (k : String)
    (hk1 : k ≠ "cognitive_checks") (hk2 : k ≠ "cognitive_meta")
    (hk3 : k ≠ "sitrep_collectors") :
    (writeCognitiveResults fs statusPath payload true).1 = true
    ∧ (writeCognitiveResults fs statusPath payload true).2
        = [.write (statusPath ++ ".l2tmp")
             (.jsonDoc (.obj (mergeFields (readExistingFields fs statusPath) payload))),
           .rename (statusPath ++ ".l2tmp") statusPath]
    ∧ lookupPath (applyOps fs (writeCognitiveResults fs statusPath payload true).2) statusPath
        = some (.jsonDoc (.obj (mergeFields (readExistingFields fs statusPath) payload)))
    ∧ getField (mergeFields (readExistingFields fs statusPath) payload) k
        = getField (readExistingFields fs statusPath) k
    ∧ (∀ fields, lookupPath fs statusPath = some (.jsonDoc (.obj fields)) →
        readExistingFields fs statusPath = fields) := by
  refine ⟨rfl, rfl, ?_, ?_, ?_⟩
  · show lookupPath (applyOps fs
        [FsOp.write (statusPath ++ ".l2tmp")
           (.jsonDoc (.obj (mergeFields (readExistingFields fs statusPath) payload))),
         FsOp.rename (statusPath ++ ".l2tmp") statusPath]) statusPath = _
    simp only [applyOps, List.foldl, applyOp]
    rw [lookupPath_setPath_self]
    exact lookupPath_setPath_self _ _ _
  · unfold mergeFields
    cases payload.sitrep_collectors with
    | none =>
      rw [getField_setField_ne _ _ _ _ hk2, getField_setField_ne _ _ _ _ hk1]
    | some v =>
      rw [getField_setField_ne _ _ _ _ hk3, getField_setField_ne _ _ _ _ hk2,
        getField_setField_ne _ _ _ _ hk1]
  · intro fields hlook
    unfold readExistingFields
    rw [hlook]

/-- C2 witness: an existing document holding the four L1-owned keys; the
persisted result still answers the original value for `daemon_checks`. -/
theorem writer_preserves_l1_region_witness :
    getField (mergeFields (readExistingFields l1StatusFs "leuko-status.json") samplePayload)
        "daemon_checks"
      = some (.arr [.obj [("check_name", .str "cron_health:extractor")]])
    ∧ lookupPath (applyOps l1StatusFs
          (writeCognitiveResults l1StatusFs "leuko-status.json" samplePayload true).2)
        "leuko-status.json"
      = some (.jsonDoc (.obj (mergeFields (readExistingFields l1StatusFs "leuko-status.json")
          samplePayload))) := by
  have h := writer_preserves_l1_region l1StatusFs "leuko-status.json" samplePayload
    "daemon_checks" (by decide) (by decide) (by decide)
  refine ⟨?_, h.2.2.1⟩
  rw [h.2.2.2.1]
  rfl

/-- C1: whenever the LLM returns null content or unparsable content, the
goal-quality and thread-health checks fail open: severity is exactly the
pre-filter floor (`warn` when the pre-filter produced at least one
finding, `ok` otherwise, never `critical`), and the result's findings are
exactly the pre-filter findings. -/
theorem failopen_prefilter_floor (goals : List PendingGoal) (threads : List ThreadEntry)
    (staleDays now : Int) (ts : String) (dur : Int)
    (llmG : LlmResult LlmGoalResponse) (llmT : LlmResult LlmThreadResponse)
    (hg : goals ≠ []) (ht : threads ≠ [])
    (hcg : llmG.content = none ∨ llmG.content = some none)
    (hct : llmT.content = none ∨ llmT.content = some none) :
    ((runGoalQualityCheck (some goals) now ts dur llmG).severity
        = (if (preFilterGoals goals now).length > 0 then .warn else .ok)
      ∧ (runGoalQualityCheck (some goals) now ts dur llmG).severity ≠ .critical
      ∧ (runGoalQualityCheck (some goals) now ts dur llmG).findings
          = some (preFilterGoals goals now))
    ∧ ((runThreadHealthCheck (some threads) staleDays now ts dur llmT).severity
        = (if (preFilterThreads threads staleDays now).length > 0 then .warn else .ok)
      ∧ (runThreadHealthCheck (some threads) staleDays now ts dur llmT).severity ≠ .critical
      ∧ (runThreadHealthCheck (some threads) staleDays now ts dur llmT).findings
          = some (preFilterThreads threads staleDays now)) := by
  have hGne : goals.isEmpty = false := by simpa [List.isEmpty_iff] using hg
  have hTne : threads.isEmpty = false := by simpa [List.isEmpty_iff] using ht
  constructor
  · rcases hcg with h | h <;>
      simp only [runGoalQualityCheck, hGne, Bool.false_eq_true, if_false, h] <;>
      refine ⟨by trivial, ?_, by trivial⟩ <;>
      split <;> simp
  · rcases hct with h | h <;>
      simp only [runThreadHealthCheck, hTne, Bool.false_eq_true, if_false, h] <;>
      refine ⟨by trivial, ?_, by trivial⟩ <;>
      split <;> simp

/-- C1 witness: one expired goal and one stale thread, LLM timing out on
both checks — both results are `warn` and carry exactly the pre-filter
findings. -/
theorem failopen_prefilter_floor_witness :
    (runGoalQualityCheck (some [expiredGoal]) 10 "t" 1 timeoutLlmG).severity = .warn
    ∧ (runGoalQualityCheck (some [expiredGoal]) 10 "t" 1 timeoutLlmG).findings
        = some (preFilterGoals [expiredGoal] 10)
    ∧ (runThreadHealthCheck (some [staleThread]) 5 864000000 "t" 1 timeoutLlmT).severity = .warn
    ∧ (runThreadHealthCheck (some [staleThread]) 5 864000000 "t" 1 timeoutLlmT).findings
        = some (preFilterThreads [staleThread] 5 864000000) := by
  have h := failopen_prefilter_floor [expiredGoal] [staleThread] 5 10 "t" 1
    timeoutLlmG timeoutLlmT (by simp) (by simp) (Or.inl rfl) (Or.inl rfl)
  have h2 := failopen_prefilter_floor [expiredGoal] [staleThread] 5 864000000 "t" 1
    timeoutLlmG timeoutLlmT (by simp) (by simp) (Or.inl rfl) (Or.inl rfl)
  refine ⟨?_, h.1.2.2, ?_, h2.2.2.2⟩
  · rw [h.1.1]
    rfl
  · rw [h2.2.1]
    rfl

/-- Membership in the truthy-id set: for a non-empty string, being in
the collected id set is the same as being one of the subject ids. -/
theorem mem_truthyIds_iff (ids : List (Option String)) (s : String) (hs : s ≠ "") :
    s ∈ (ids.filterMap id).filter (· ≠ "") ↔ some s ∈ ids := by
  simp only [List.mem_filter, List.mem_filterMap, id, decide_not, Bool.not_eq_eq_eq_not,
    Bool.not_true, decide_eq_false_iff_not]
  constructor
  · rintro ⟨⟨a, ha, rfl⟩, _⟩
    exact ha
  · intro h
    exact ⟨⟨some s, h, rfl⟩, hs⟩

/-- The goal-quality dedup in claim form: `mergeLlmFindings` keeps
exactly the LLM findings whose `item_id` is absent, empty, or different
from every pre-filter `item_id`. -/
theorem mergeLlmFindings_eq_claim_form (pre : List CheckFinding)
    (parsed : LlmGoalResponse) :
    mergeLlmFindings pre parsed
      = pre ++ ((parsed.findings.getD []).map sanitizeGoalFinding).filter
          (fun f => keepByClaim (pre.map (·.item_id)) f.item_id) := by
  unfold mergeLlmFindings
  dsimp only
  congr 1
  apply List.filter_congr
  intro f _
  cases hid : f.item_id with
  | none => simp [keepByClaim, hid]
  | some s =>
    by_cases hs : s = ""
    · subst hs
      simp [keepByClaim, hid]
    · simp only [hid, keepByClaim, seenIds, decide_eq_true_eq]
      rw [Bool.decide_or]
      congr 1
      have hmem := mem_truthyIds_iff (pre.map (·.item_id)) s hs
      by_cases hin : some s ∈ pre.map (·.item_id)
      · rw [decide_eq_false (fun hnotin => hnotin (hmem.mpr hin))]
        symm
        rw [List.all_eq_false]
        exact ⟨some s, hin, by simp⟩
      · have hdec : decide (s ∉ List.filter (fun x => decide (x ≠ ""))
            (List.filterMap id (List.map (fun x => x.item_id) pre))) = true :=
          decide_eq_true (fun hin2 => hin (hmem.mp hin2))
        rw [hdec]
        symm
        rw [List.all_eq_true]
        intro i hi
        apply decide_eq_true
        rintro rfl
        exact hin hi

/-- The thread-health dedup in claim form. -/
theorem mergeThreadFindings_eq_claim_form (pre : List CheckFinding)
    (parsed : LlmThreadResponse) :
    mergeThreadFindings pre parsed
      = pre ++ ((parsed.findings.getD []).map sanitizeThreadFinding).filter
          (fun f => keepByClaim (pre.map (·.thread_id)) f.thread_id) := by
  unfold mergeThreadFindings
  dsimp only
  congr 1
  apply List.filter_congr
  intro f _
  cases hid : f.thread_id with
  | none => simp [keepByClaim, hid]
  | some s =>
    by_cases hs : s = ""
    · subst hs
      simp [keepByClaim, hid]
    · simp only [hid, keepByClaim, seenThreadIds, decide_eq_true_eq]
      rw [Bool.decide_or]
      congr 1
      have hmem := mem_truthyIds_iff (pre.map (·.thread_id)) s hs
      by_cases hin : some s ∈ pre.map (·.thread_id)
      · rw [decide_eq_false (fun hnotin => hnotin (hmem.mpr hin))]
        symm
        rw [List.all_eq_false]
        exact ⟨some s, hin, by simp⟩
      · have hdec : decide (s ∉ List.filter (fun x => decide (x ≠ ""))
            (List.filterMap id (List.map (fun x => x.thread_id) pre))) = true :=
          decide_eq_true (fun hin2 => hin (hmem.mp hin2))
        rw [hdec]
        symm
        rw [List.all_eq_true]
        intro i hi
        apply decide_eq_true
        rintro rfl
        exact hin hi

/-- The two-argument `worstSeverity` of `thread-health.ts` agrees with
the variadic one of `check-utils.ts`. -/
theorem worstSeverity2_eq_worstSeverity (a b : Severity) :
    worstSeverity2 a b = worstSeverity [a, b] := by
  cases a <;> cases b <;> rfl

/-- C4 counterexample: with a pre-filter finding whose subject id is the
empty string and an LLM finding carrying the same empty-string id, the
code keeps the LLM finding (JS truthiness treats `""` as no id), while
the claim as stated — id present and equal to a pre-filter id — would
suppress it. -/
theorem llm_dedup_counterexample :
    (runGoalQualityCheck (some [emptyIdGoal]) 10 "t" 1
        { content := some (some emptyIdLlmReply), model := "m", tokens := 7 }).findings
      = some (mergeLlmFindings (preFilterGoals [emptyIdGoal] 10) emptyIdLlmReply)
    ∧ (mergeLlmFindings (preFilterGoals [emptyIdGoal] 10) emptyIdLlmReply).length = 2
    ∧ (mergeLlmFindingsClaimed (preFilterGoals [emptyIdGoal] 10) emptyIdLlmReply).length = 1
    ∧ mergeLlmFindings (preFilterGoals [emptyIdGoal] 10) emptyIdLlmReply
      ≠ mergeLlmFindingsClaimed (preFilterGoals [emptyIdGoal] 10) emptyIdLlmReply := by
  refine ⟨rfl, rfl, rfl, fun h => ?_⟩
  have h2 := congrArg List.length h
  rw [show (mergeLlmFindings (preFilterGoals [emptyIdGoal] 10) emptyIdLlmReply).length = 2
      from rfl,
    show (mergeLlmFindingsClaimed (preFilterGoals [emptyIdGoal] 10) emptyIdLlmReply).length = 1
      from rfl] at h2
  exact absurd h2 (by decide)

/-- C4 (amended): when the LLM returns parseable JSON, the final severity
is `worstSeverity(llm severity, pre-filter severity)` and the final
findings are the pre-filter findings followed by exactly those LLM
findings whose subject id is absent, *or empty*, or does not equal any
pre-filter finding's subject id — pre-filter findings are never
discarded or replaced. -/
theorem llm_merge_dedup_amended (goals : List PendingGoal) (threads : List ThreadEntry)
    (staleDays now : Int) (ts : String) (dur : Int)
    (llmG : LlmResult LlmGoalResponse) (llmT : LlmResult LlmThreadResponse)
    (parsedG : LlmGoalResponse) (parsedT : LlmThreadResponse)
    (hg : goals ≠ []) (ht : threads ≠ [])
    (hpg : llmG.content = some (some parsedG)) (hpt : llmT.content = some (some parsedT)) :
    ((runGoalQualityCheck (some goals) now ts dur llmG).severity
        = worstSeverity [parseSeverityString parsedG.severity,
            if (preFilterGoals goals now).length > 0 then .warn else .ok]
      ∧ (runGoalQualityCheck (some goals) now ts dur llmG).findings
          = some (preFilterGoals goals now
              ++ ((parsedG.findings.getD []).map sanitizeGoalFinding).filter
                  (fun f => keepByClaim ((preFilterGoals goals now).map (·.item_id)) f.item_id)))
    ∧ ((runThreadHealthCheck (some threads) staleDays now ts dur llmT).severity
        = worstSeverity [parseSeverityString parsedT.severity,
            if (preFilterThreads threads staleDays now).length > 0 then .warn else .ok]
      ∧ (runThreadHealthCheck (some threads) staleDays now ts dur llmT).findings
          = some (preFilterThreads threads staleDays now
              ++ ((parsedT.findings.getD []).map sanitizeThreadFinding).filter
                  (fun f => keepByClaim
                    ((preFilterThreads threads staleDays now).map (·.thread_id))
                    f.thread_id))) := by
  have hGne : goals.isEmpty = false := by simpa [List.isEmpty_iff] using hg
  have hTne : threads.isEmpty = false := by simpa [List.isEmpty_iff] using ht
  constructor
  · simp only [runGoalQualityCheck, hGne, Bool.false_eq_true, if_false, hpg]
    exact ⟨by trivial, congrArg some (mergeLlmFindings_eq_claim_form _ _)⟩
  · simp only [runThreadHealthCheck, hTne, Bool.false_eq_true, if_false, hpt]
    exact ⟨worstSeverity2_eq_worstSeverity _ _,
      congrArg some (mergeThreadFindings_eq_claim_form _ _)⟩

/-- C4 witness: an expired goal whose id the LLM also reports (the LLM
duplicate is suppressed, a fresh-id LLM finding survives), and the
analogous thread scenario; severity is the worst of the two signals. -/
theorem llm_merge_dedup_amended_witness :
    (runGoalQualityCheck (some [expiredGoal]) 864000000 "t" 1 goalLlmReply).severity = .warn
    ∧ (runGoalQualityCheck (some [expiredGoal]) 864000000 "t" 1 goalLlmReply).findings
        = some (preFilterGoals [expiredGoal] 864000000
            ++ [{ item_id := some "g9", issue := "vague_title", detail := "" }])
    ∧ (runThreadHealthCheck (some [staleThread]) 5 864000000 "t" 1 threadLlmReply).severity
        = .warn
    ∧ (runThreadHealthCheck (some [staleThread]) 5 864000000 "t" 1 threadLlmReply).findings
        = some (preFilterThreads [staleThread] 5 864000000
            ++ [{ thread_id := some "t2", issue := "incomplete", detail := "" }]) := by
  have h := llm_merge_dedup_amended [expiredGoal] [staleThread] 5 864000000 "t" 1
    goalLlmReply threadLlmReply goalReplyParsed threadReplyParsed
    (by simp) (by simp) rfl rfl
  refine ⟨?_, ?_, ?_, ?_⟩
  · rw [h.1.1]; rfl
  · rw [h.1.2]; rfl
  · rw [h.2.1]; rfl
  · rw [h.2.2]; rfl

/-- The scan's down counter grows by at most the number of steps seen. -/
theorem scanUpDown_snd_le (l : List (ℚ × ℚ)) (u d : Nat) :
    (scanUpDown l u d).2 ≤ l.length + d := by
  induction l generalizing u d with
  | nil => simp [scanUpDown]
  | cons p rest ih =>
    obtain ⟨prev, curr⟩ := p
    simp only [scanUpDown, List.length_cons]
    split
    · exact le_trans (ih (u + 1) 0) (by omega)
    · split
      · exact le_trans (ih 0 (d + 1)) (by omega)
      · omega

/-- The scan window has one step fewer than the value sequence. -/
theorem trendPairs_length (h : LeukoHistory) (m : String) :
    (trendPairs h m).length = (metricValues h m).length - 1 := by
  simp only [trendPairs, List.length_reverse, List.length_zip, List.length_tail]
  omega

/-- C6: for each metric, the backward scan of `detectTrends` (strictly
decreasing steps count down, an equal step stops the scan) governs the
trend anomalies: a final down count ≥ 5 yields a `critical` anomaly whose
deviation ends in "possible data loss", a count of 3 or 4 yields a `warn`
anomaly, fewer than 3 yields no anomaly, a `growing` trend never yields
one, and the check's anomaly list contains exactly the directory-growth
and per-tracked-metric trend anomalies. -/
theorem trend_anomaly_thresholds (h : LeukoHistory) (metric : String) :
    ((scanUpDown (trendPairs h metric) 0 0).2 ≥ 5 →
      trendAnomaly (some h) metric = some
        { metric := metric, current := ((scanUpDown (trendPairs h metric) 0 0).2 : ℚ)
          baseline := 0
          deviation := toString (scanUpDown (trendPairs h metric) 0 0).2
            ++ " consecutive decreases — possible data loss"
          severity := .critical }
      ∧ ∃ s1, toString (scanUpDown (trendPairs h metric) 0 0).2
            ++ " consecutive decreases — possible data loss"
          = s1 ++ "possible data loss")
    ∧ (3 ≤ (scanUpDown (trendPairs h metric) 0 0).2 →
        (scanUpDown (trendPairs h metric) 0 0).2 < 5 →
        trendAnomaly (some h) metric = some
          { metric := metric, current := ((scanUpDown (trendPairs h metric) 0 0).2 : ℚ)
            baseline := 0
            deviation := toString (scanUpDown (trendPairs h metric) 0 0).2
              ++ " consecutive decreases"
            severity := .warn })
    ∧ ((scanUpDown (trendPairs h metric) 0 0).2 < 3 →
        trendAnomaly (some h) metric = none)
    ∧ ((detectTrends (some h) metric).2 = .growing → trendAnomaly (some h) metric = none)
    ∧ (∀ dirs now ts dur,
        (runAnomalyDetectionCheck dirs (some h) now ts dur).anomalies
          = some ((dirs.filterMap (fun p => p.2.map (fun mb => (p.1, mb)))).filterMap
                (fun p => dirGrowthAnomaly (some h) p.1 p.2 (now - 7 * 24 * 60 * 60 * 1000))
              ++ trackedMetrics.filterMap (trendAnomaly (some h)))) := by
  have hguards : ∀ k : Nat, 3 ≤ k → (scanUpDown (trendPairs h metric) 0 0).2 = k →
      detectTrends (some h) metric = (k, .shrinking) := by
    intro k hk3 hkeq
    have hle := scanUpDown_snd_le (trendPairs h metric) 0 0
    rw [hkeq] at hle
    have hplen := trendPairs_length h metric
    have hvals : 4 ≤ (metricValues h metric).length := by omega
    have hsnaps : 4 ≤ h.snapshots.length :=
      le_trans hvals (List.length_filterMap_le _ _)
    unfold detectTrends
    dsimp only
    rw [if_neg (show ¬h.snapshots.length < 3 by omega),
      if_neg (show ¬(metricValues h metric).length < 3 by omega), hkeq,
      if_pos hk3]
  have hshrinkcount : (detectTrends (some h) metric).2 = .shrinking →
      3 ≤ (scanUpDown (trendPairs h metric) 0 0).2 := by
    unfold detectTrends
    dsimp only
    split_ifs with h1 h2 h3 h4 <;> intro hdir <;>
      first
        | exact h3
        | cases hdir
  refine ⟨fun h5 => ?_, fun h3 h5 => ?_, fun hlt => ?_, fun hgrow => ?_,
    fun dirs now ts dur => rfl⟩
  · have hdt := hguards _ (by omega) rfl
    unfold trendAnomaly
    dsimp only
    rw [hdt, if_pos ⟨rfl, h5⟩]
    refine ⟨rfl, ⟨toString (scanUpDown (trendPairs h metric) 0 0).2
      ++ " consecutive decreases — ", ?_⟩⟩
    rw [show (" consecutive decreases — possible data loss" : String)
        = " consecutive decreases — " ++ "possible data loss" by rfl]
    rw [String.append_assoc]
  · have hdt := hguards _ h3 rfl
    unfold trendAnomaly
    dsimp only
    rw [hdt, if_neg (fun hc => absurd hc.2 (by omega)), if_pos ⟨rfl, h3⟩]
  · unfold trendAnomaly
    dsimp only
    rcases hdt : detectTrends (some h) metric with ⟨c, dir⟩
    by_cases hshr : dir = TrendDirection.shrinking
    · subst hshr
      have := hshrinkcount (by rw [hdt])
      omega
    · rw [if_neg (fun hc => hshr hc.1), if_neg (fun hc => hshr hc.1)]
  · unfold trendAnomaly
    dsimp only
    rcases hdt : detectTrends (some h) metric with ⟨c, dir⟩
    rw [hdt] at hgrow
    dsimp only at hgrow
    subst hgrow
    rw [if_neg (fun hc => nomatch hc.1), if_neg (fun hc => nomatch hc.1)]

/-- C6 witness: six snapshots of `fact_count` strictly decreasing — five
consecutive decreases produce the `critical` data-loss anomaly. -/
theorem trend_anomaly_thresholds_witness :
    trendAnomaly (some shrinkingHistory) "fact_count" = some
      { metric := "fact_count", current := 5, baseline := 0
        deviation := "5 consecutive decreases — possible data loss"
        severity := .critical }
    ∧ ∃ s1, ("5 consecutive decreases — possible data loss" : String)
        = s1 ++ "possible data loss" := by
  have h := (trend_anomaly_thresholds shrinkingHistory "fact_count").1 (by decide)
  constructor
  · rw [h.1]
    rfl
  · exact ⟨"5 consecutive decreases — ", by rfl⟩

/-- `worstSeverity` over a cons in terms of the binary reducer. -/
theorem worstSeverity_cons (a : Severity) (l : List Severity) :
    worstSeverity (a :: l) = worstSeverity2 a (worstSeverity l) := by
  cases a <;> by_cases hc : Severity.critical ∈ l <;> by_cases hw : Severity.warn ∈ l <;>
    simp [worstSeverity, worstSeverity2, sevOrder, hc, hw]

/-- Associativity of the binary severity reducer. -/
theorem worstSeverity2_assoc (a b c : Severity) :
    worstSeverity2 (worstSeverity2 a b) c = worstSeverity2 a (worstSeverity2 b c) := by
  cases a <;> cases b <;> cases c <;> rfl

/-- One fold step of `computeCorrelationSeverity` adds exactly the
correlation's `corrContribution`. -/
theorem corrStep_eq (acc : Severity) (c : CorrelationEntry) :
    (if c.diagnosis = "consumer_disconnected" ∧ c.output_value > 4 then
        worstSeverity [acc, .critical]
      else if c.diagnosis = "consumer_disconnected" then worstSeverity [acc, .warn]
      else if c.diagnosis = "pipeline_disconnected" ∨ c.diagnosis = "event_source_silent" then
        worstSeverity [acc, .warn]
      else acc)
    = worstSeverity2 acc (corrContribution c) := by
  unfold corrContribution
  by_cases hd : c.diagnosis = "consumer_disconnected"
  · by_cases ho : c.output_value > 4
    · simp [hd, ho, ← worstSeverity2_eq_worstSeverity]
    · simp [hd, ho, ← worstSeverity2_eq_worstSeverity]
  · by_cases hp : c.diagnosis = "pipeline_disconnected" ∨ c.diagnosis = "event_source_silent"
    · simp [hd, hp, ← worstSeverity2_eq_worstSeverity]
    · simp only [hd, hp, false_and, if_false, if_neg hd, if_neg hp]
      cases acc <;> rfl

/-- The severity loop of `computeCorrelationSeverity`, generalised over
the accumulator: it computes the worst of the accumulator and the
per-correlation contributions. -/
theorem corrSeverityFold_eq (acc : Severity) (cs : List CorrelationEntry) :
    List.foldl
      (fun severity c =>
        if c.diagnosis = "consumer_disconnected" ∧ c.output_value > 4 then
          worstSeverity [severity, .critical]
        else if c.diagnosis = "consumer_disconnected" then
          worstSeverity [severity, .warn]
        else if c.diagnosis = "pipeline_disconnected" ∨ c.diagnosis = "event_source_silent" then
          worstSeverity [severity, .warn]
        else severity)
      acc cs
    = worstSeverity2 acc (worstSeverity (cs.map corrContribution)) := by
  induction cs generalizing acc with
  | nil =>
    cases acc <;> rfl
  | cons c rest ih =>
    rw [List.foldl_cons, corrStep_eq, ih, List.map_cons, worstSeverity_cons,
      ← worstSeverity2_assoc]

/-- `computeCorrelationSeverity` is the worst of the per-correlation
contributions. -/
theorem computeCorrelationSeverity_eq_worst (cs : List CorrelationEntry) :
    computeCorrelationSeverity cs = worstSeverity (cs.map corrContribution) := by
  unfold computeCorrelationSeverity
  rw [corrSeverityFold_eq]
  cases hW : worstSeverity (cs.map corrContribution) <;> rfl

/-- C7 counterexample: 50 NATS messages and a threads file 3 hours old
with a 2-hour window emit a `consumer_slow` correlation, yet the final
severity is `ok` — `computeCorrelationSeverity` has no branch for
`consumer_slow`, so it contributes nothing rather than the claimed
`warn`. -/
theorem consumer_slow_counterexample :
    (runPipelineCorrelationCheck slowSignals 2 "t" 0).correlations
      = some [{ input := "nats_total_messages", input_value := 50
                output := "threads_age_hours", output_value := jsRound10 3
                diagnosis := "consumer_slow" }]
    ∧ jsRound10 3 = 3
    ∧ (runPipelineCorrelationCheck slowSignals 2 "t" 0).severity = .ok
    ∧ (runPipelineCorrelationCheck slowSignals 2 "t" 0).severity ≠ .warn := by
  refine ⟨rfl, ?_, rfl, by intro h; cases h⟩
  unfold jsRound10 jsRound
  norm_num

/-- C7 (amended): a `consumer_disconnected` correlation is emitted
exactly when the message count is positive and the threads age exceeds
4 h; it contributes `critical` when its *rounded* age value exceeds 4 and
`warn` otherwise (an age in (4, 4.05) rounds to 4.0 and only yields
`warn`).  A `consumer_slow` correlation is emitted for window < age ≤ 4 h
but contributes nothing (`ok`).  The final severity is the worst of the
per-correlation contributions, and with no correlation the result is
`ok` with detail "All pipeline correlations normal". -/
theorem pipeline_correlation_amended (s : PipelineSignals) (windowH : ℚ)
    (ts : String) (dur : Int) :
    ((runPipelineCorrelationCheck s windowH ts dur).severity
        = worstSeverity ((buildCorrelations s windowH).map corrContribution))
    ∧ (∀ nt age, s.natsTotal = some nt → 0 < nt → s.threadsAgeH = some age → 4 < age →
        ({ input := "nats_total_messages", input_value := nt
           output := "threads_age_hours", output_value := jsRound10 age
           diagnosis := "consumer_disconnected" } : CorrelationEntry)
          ∈ buildCorrelations s windowH
        ∧ corrContribution
            { input := "nats_total_messages", input_value := nt
              output := "threads_age_hours", output_value := jsRound10 age
              diagnosis := "consumer_disconnected" }
          = (if jsRound10 age > 4 then .critical else .warn))
    ∧ (∀ nt age, s.natsTotal = some nt → 0 < nt → s.threadsAgeH = some age →
        windowH < age → age ≤ 4 →
        ({ input := "nats_total_messages", input_value := nt
           output := "threads_age_hours", output_value := jsRound10 age
           diagnosis := "consumer_slow" } : CorrelationEntry)
          ∈ buildCorrelations s windowH
        ∧ corrContribution
            { input := "nats_total_messages", input_value := nt
              output := "threads_age_hours", output_value := jsRound10 age
              diagnosis := "consumer_slow" }
          = .ok)
    ∧ (buildCorrelations s windowH = [] →
        (runPipelineCorrelationCheck s windowH ts dur).severity = .ok
        ∧ (runPipelineCorrelationCheck s windowH ts dur).detail
            = "All pipeline correlations normal") := by
  refine ⟨computeCorrelationSeverity_eq_worst _, fun nt age hnt h0 hage h4 => ?_,
    fun nt age hnt h0 hage hw h4 => ?_, fun hempty => ?_⟩
  · constructor
    · unfold buildCorrelations addNatsThreadCorrelation
      rw [hnt, hage]
      dsimp only
      rw [if_neg (not_le.mpr h0), if_pos h4]
      exact List.mem_append_left _ (List.mem_append_left _ (List.mem_singleton.mpr rfl))
    · unfold corrContribution
      rw [if_pos rfl]
  · constructor
    · unfold buildCorrelations addNatsThreadCorrelation
      rw [hnt, hage]
      dsimp only
      rw [if_neg (not_le.mpr h0), if_neg (not_lt.mpr h4), if_pos hw]
      exact List.mem_append_left _ (List.mem_append_left _ (List.mem_singleton.mpr rfl))
    · unfold corrContribution
      rw [if_neg (fun h => by simp at h),
        if_neg (fun h => by rcases h with h | h <;> simp at h)]
  · unfold runPipelineCorrelationCheck
    rw [hempty]
    exact ⟨rfl, rfl⟩

/-- C7 witness: 100 messages, a 5-hour-old threads file and a 2-hour
window produce `consumer_disconnected` and a `critical` result (the
specification's scenario 4). -/
theorem pipeline_correlation_amended_witness :
    ({ input := "nats_total_messages", input_value := 100
       output := "threads_age_hours", output_value := jsRound10 5
       diagnosis := "consumer_disconnected" } : CorrelationEntry)
      ∈ buildCorrelations disconnectedSignals 2
    ∧ corrContribution
        { input := "nats_total_messages", input_value := 100
          output := "threads_age_hours", output_value := jsRound10 5
          diagnosis := "consumer_disconnected" }
      = .critical
    ∧ (runPipelineCorrelationCheck disconnectedSignals 2 "t" 0).severity = .critical := by
  have h := pipeline_correlation_amended disconnectedSignals 2 "t" 0
  have h2 := h.2.1 100 5 rfl (by norm_num) rfl (by norm_num)
  have h5 : jsRound10 5 = 5 := by
    unfold jsRound10 jsRound
    norm_num
  have hcontrib : corrContribution
      { input := "nats_total_messages", input_value := 100
        output := "threads_age_hours", output_value := jsRound10 5
        diagnosis := "consumer_disconnected" } = .critical := by
    rw [h2.2, if_pos (by rw [h5]; norm_num)]
  refine ⟨h2.1, hcontrib, ?_⟩
  rw [h.1,
    show buildCorrelations disconnectedSignals 2
      = [{ input := "nats_total_messages", input_value := 100
           output := "threads_age_hours", output_value := jsRound10 5
           diagnosis := "consumer_disconnected" }] from rfl,
    List.map_cons, List.map_nil, hcontrib]
  rfl

/-- Writing a fresh key into the baselines record appends it. -/
theorem setBaseline_append (l : List (String × ℚ)) (k : String) (v : ℚ)
    (hfresh : ∀ e ∈ l, e.1 ≠ k) :
    setBaseline l k v = l ++ [(k, v)] := by
  induction l with
  | nil => rfl
  | cons e rest ih =>
    simp only [setBaseline]
    rw [if_neg (hfresh e (List.mem_cons_self e rest))]
    rw [ih (fun e' he' => hfresh e' (List.mem_cons_of_mem e he'))]
    rfl

/-- The baselines fold of `runAnomalyDetectionCheck`: with pairwise
distinct `<label>_dir_mb` keys it appends one entry per computable
directory, in order. -/
theorem baselines_fold (dirResults : List (String × ℚ)) (acc : List (String × ℚ))
    (hdisj : ∀ p ∈ dirResults, ∀ a ∈ acc, a.1 ≠ p.1 ++ "_dir_mb")
    (hnodup : (dirResults.map (fun p => p.1 ++ "_dir_mb")).Nodup) :
    dirResults.foldl (fun acc p => setBaseline acc (p.1 ++ "_dir_mb") p.2) acc
      = acc ++ dirResults.map (fun p => (p.1 ++ "_dir_mb", p.2)) := by
  induction dirResults generalizing acc with
  | nil => simp
  | cons p rest ih =>
    rw [List.foldl_cons,
      setBaseline_append acc (p.1 ++ "_dir_mb") p.2
        (fun a ha => hdisj p (List.mem_cons_self p rest) a ha)]
    rw [List.map_cons] at hnodup
    rw [ih (acc ++ [(p.1 ++ "_dir_mb", p.2)]) ?hdisj2 (List.nodup_cons.mp hnodup).2]
    · simp
    case hdisj2 =>
      intro q hq a ha
      rcases List.mem_append.mp ha with ha' | ha'
      · exact hdisj q (List.mem_cons_of_mem p hq) a ha'
      · rw [List.mem_singleton.mp ha']
        intro hcontra
        refine (List.nodup_cons.mp hnodup).1 ?_
        rw [show p.1 ++ "_dir_mb" = q.1 ++ "_dir_mb" from hcontra]
        exact List.mem_map_of_mem _ hq

/-- First-match lookup finds a pair's value when the keys are distinct. -/
theorem lookup_of_mem_nodup (l : List (String × ℚ)) (k : String) (v : ℚ)
    (hmem : (k, v) ∈ l) (hnodup : (l.map Prod.fst).Nodup) :
    l.lookup k = some v := by
  induction l with
  | nil => cases hmem
  | cons e rest ih =>
    rw [List.map_cons, List.nodup_cons] at hnodup
    rcases List.mem_cons.mp hmem with heq | htail
    · rw [← heq, List.lookup]
      simp
    · have hne : k ≠ e.1 := by
        rintro rfl
        exact hnodup.1 (List.mem_map.mpr ⟨(e.1, v), htail, rfl⟩)
      rw [List.lookup, beq_eq_false_iff_ne.mpr hne]
      exact ih htail hnodup.2

/-- C8 (amended): every computable directory size is recorded into the
result's baselines under `<label>_dir_mb` whether or not an anomaly
fires; the check's anomaly list is the directory-growth anomalies plus
the trend anomalies; and when the *first* history snapshot in stored
(oldest-first) order older than 7 days recorded the key with a positive
value, a current/baseline ratio above 5 yields a `critical` anomaly and a
ratio above 2 a `warn` anomaly, each with deviation
`<ratio>x growth in 7 days`, and otherwise (ratio ≤ 2, no qualifying
snapshot, or non-positive baseline never reached) no anomaly is emitted
for that directory. -/
theorem dir_growth_amended (dirs : List (String × Option ℚ)) (history : Option LeukoHistory)
    (now : Int) (ts : String) (dur : Int)
    (hnodup : ((dirs.filterMap (fun p => p.2.map (fun mb => (p.1, mb)))).map
        (fun p => p.1 ++ "_dir_mb")).Nodup) :
    (∀ label mb, (label, some mb) ∈ dirs →
      ((runAnomalyDetectionCheck dirs history now ts dur).baselines.getD []).lookup
          (label ++ "_dir_mb") = some mb)
    ∧ ((runAnomalyDetectionCheck dirs history now ts dur).anomalies
        = some ((dirs.filterMap (fun p => p.2.map (fun mb => (p.1, mb)))).filterMap
              (fun p => dirGrowthAnomaly history p.1 p.2 (now - 7 * 24 * 60 * 60 * 1000))
            ++ trackedMetrics.filterMap (trendAnomaly history)))
    ∧ (∀ (h : LeukoHistory) (label : String) (mb : ℚ) (weekAgo : Int)
          (snap : HistorySnapshot) (b : ℚ),
        findBaselineSnapshot h weekAgo = some snap →
        snap.metrics.lookup (label ++ "_dir_mb") = some b → 0 < b →
        ((5 < mb / b → dirGrowthAnomaly (some h) label mb weekAgo
            = some { metric := label ++ "_dir_mb", current := mb, baseline := b
                     deviation := toFixed1 (mb / b) ++ "x growth in 7 days"
                     severity := .critical })
         ∧ (2 < mb / b → mb / b ≤ 5 → dirGrowthAnomaly (some h) label mb weekAgo
            = some { metric := label ++ "_dir_mb", current := mb, baseline := b
                     deviation := toFixed1 (mb / b) ++ "x growth in 7 days"
                     severity := .warn })
         ∧ (mb / b ≤ 2 → dirGrowthAnomaly (some h) label mb weekAgo = none)))
    ∧ (∀ (h : LeukoHistory) (label : String) (mb : ℚ) (weekAgo : Int),
        findBaselineSnapshot h weekAgo = none →
        dirGrowthAnomaly (some h) label mb weekAgo = none) := by
  refine ⟨fun label mb hmem => ?_, rfl, ?_, fun h label mb weekAgo hfind => ?_⟩
  · have hbase : (runAnomalyDetectionCheck dirs history now ts dur).baselines
        = some ((dirs.filterMap (fun p => p.2.map (fun mb => (p.1, mb)))).foldl
            (fun acc p => setBaseline acc (p.1 ++ "_dir_mb") p.2) []) := rfl
    rw [hbase]
    rw [baselines_fold _ [] (by intro p _ a ha; cases ha) hnodup]
    have hmem2 : (label, mb) ∈ dirs.filterMap (fun p => p.2.map (fun mb => (p.1, mb))) :=
      List.mem_filterMap.mpr ⟨(label, some mb), hmem, rfl⟩
    refine lookup_of_mem_nodup _ _ _ (List.mem_map_of_mem _ hmem2) ?_
    simpa [Function.comp] using hnodup
  · intro h label mb weekAgo snap b hfind hlook hb
    have hlen : 0 < h.snapshots.length :=
      List.length_pos.mpr (List.ne_nil_of_mem (List.mem_of_find?_eq_some hfind))
    refine ⟨fun h5 => ?_, fun h2 h5 => ?_, fun hle => ?_⟩
    · unfold dirGrowthAnomaly
      dsimp only
      rw [if_pos hlen, hfind]
      dsimp only
      rw [hlook]
      dsimp only
      rw [if_pos hb, if_pos h5]
    · unfold dirGrowthAnomaly
      dsimp only
      rw [if_pos hlen, hfind]
      dsimp only
      rw [hlook]
      dsimp only
      rw [if_pos hb, if_neg (not_lt.mpr h5), if_pos h2]
    · unfold dirGrowthAnomaly
      dsimp only
      rw [if_pos hlen, hfind]
      dsimp only
      rw [hlook]
      dsimp only
      rw [if_pos hb, if_neg (not_lt.mpr (le_trans hle (by norm_num))),
        if_neg (not_lt.mpr hle)]
  · unfold dirGrowthAnomaly
    dsimp only
    by_cases hlen : 0 < h.snapshots.length
    · rw [if_pos hlen, hfind]
    · rw [if_neg hlen]

/-- C8 counterexample: with two snapshots older than 7 days (the oldest
recorded 10 MB, the nearest 100 MB) and a current size of 120 MB, the
code baselines against the *first* (oldest) qualifying snapshot and emits
a `critical` 12x-growth anomaly, while the claim's *nearest*-snapshot
rule (ratio 1.2) would emit no anomaly at all. -/
theorem nearest_baseline_counterexample :
    dirGrowthAnomaly (some twoBaselineHistory) "memory" 120 200
      = some { metric := "memory_dir_mb", current := 120, baseline := 10
               deviation := toFixed1 ((120 : ℚ) / 10) ++ "x growth in 7 days"
               severity := .critical }
    ∧ toFixed1 ((120 : ℚ) / 10) = "12.0"
    ∧ dirGrowthAnomalySpec (some twoBaselineHistory) "memory" 120 200 = none := by
  refine ⟨?_, ?_, ?_⟩
  · unfold dirGrowthAnomaly
    dsimp only
    rw [if_pos (by decide : 0 < twoBaselineHistory.snapshots.length),
      show findBaselineSnapshot twoBaselineHistory 200
        = some { timestamp := { raw := "t-30d", ms := some 0 }
                 metrics := [("memory_dir_mb", 10)] } from rfl]
    dsimp only
    rw [show List.lookup ("memory" ++ "_dir_mb")
        [("memory_dir_mb", (10 : ℚ))] = some 10 from rfl]
    dsimp only
    rw [if_pos (by norm_num : (0 : ℚ) < 10), if_pos (by norm_num : (5 : ℚ) < 120 / 10)]
    rfl
  · rw [show ((120 : ℚ) / 10) = 12 by norm_num]
    unfold toFixed1 jsRound
    norm_num
    rfl
  · unfold dirGrowthAnomalySpec
    dsimp only
    rw [if_pos (by decide),
      show nearestSnapshotOlderThan twoBaselineHistory 200
        = some { timestamp := { raw := "t-8d", ms := some 100 }
                 metrics := [("memory_dir_mb", 100)] } from rfl]
    dsimp only
    rw [show List.lookup ("memory" ++ "_dir_mb")
        [("memory_dir_mb", (100 : ℚ))] = some 100 from rfl]
    dsimp only
    rw [if_pos (by norm_num), if_neg (by norm_num), if_neg (by norm_num)]

/-- C8 witness: the specification's scenario 3 — a snapshot older than
7 days with `memory_dir_mb = 50` and a current size of 500 MB yield a
`critical` anomaly with deviation "10.0x growth in 7 days", and the
current size is recorded in the baselines. -/
theorem dir_growth_amended_witness :
    ((runAnomalyDetectionCheck [("memory", some 500)] (some scenario3History)
        (200 + 604800000) "t" 0).baselines.getD []).lookup "memory_dir_mb" = some 500
    ∧ dirGrowthAnomaly (some scenario3History) "memory" 500 200
        = some { metric := "memory_dir_mb", current := 500, baseline := 50
                 deviation := toFixed1 ((500 : ℚ) / 50) ++ "x growth in 7 days"
                 severity := .critical }
    ∧ toFixed1 ((500 : ℚ) / 50) = "10.0" := by
  have hmain := dir_growth_amended [("memory", some 500)] (some scenario3History)
    (200 + 604800000) "t" 0 (by simp)
  refine ⟨?_, ?_, ?_⟩
  · exact hmain.1 "memory" 500 (List.mem_singleton.mpr rfl)
  · exact ((hmain.2.2.1 scenario3History "memory" 500 200
      { timestamp := { raw := "t-8d", ms := some 100 }
        metrics := [("memory_dir_mb", 50)] } 50 rfl rfl (by norm_num)).1 (by norm_num))
  · rw [show ((500 : ℚ) / 50) = 10 by norm_num]
    unfold toFixed1 jsRound
    norm_num
    rfl

end Leuko
